/-
Verification of the Deep-Researcher research orchestration pipeline.

This file gives a shallow embedding, in Lean 4, of the parts of the
repository `pixelThreaderOfficial/Deep-Researcher` that the claims under
scrutiny talk about:

  * `gemini/rag_store/rag_stores.py` — content-hash document ids
    (`generate_document_id`), chunking and metadata assignment
    (`save_scraped_content`, `create_documents`);
  * `gemini/gen/research_base.py` — the research pipeline
    (`research_agent_stream`) with its safety gate, web search, scraping,
    RAG save/query, ambiguity gate, media searches, context assembly and
    streamed answer synthesis, together with the helper
    `_normalize_news_results`;
  * `gemini/gateway.py` — the `websocket_research` event delivery loop.

External collaborators (DDGS search, the crawler, the Chroma vector store,
the Gemini generation client, the SQLite session store) are modelled as
oracle inputs: an `Env` record supplies the value each external call would
return (or the exception it would raise).  All repository-side logic —
control flow, filtering, truncation, message texts, session updates — is
translated directly from the Python source.
-/
import Mathlib

set_option maxRecDepth 40000

namespace DeepResearcher

/-! ## SHA-256

`generate_document_id` in `rag_stores.py` hashes the UTF-8 encoding of a
chunk with `hashlib.sha256` and keeps the first 16 hex digits.  We embed
SHA-256 (FIPS 180-4) over byte lists, with 32-bit words represented as
`Nat` reduced modulo `2^32`. -/

namespace Sha256

/-- Word size modulus `2^32`. -/
def M32 : Nat := 4294967296

/-- Addition modulo `2^32`. -/
def add32 (a b : Nat) : Nat := (a + b) % M32

/-- Right rotation of a 32-bit word. -/
def rotr (n x : Nat) : Nat := ((x >>> n) ||| (x <<< (32 - n))) % M32

/-- SHA-256 big sigma 0. -/
def bs0 (x : Nat) : Nat := rotr 2 x ^^^ rotr 13 x ^^^ rotr 22 x

/-- SHA-256 big sigma 1. -/
def bs1 (x : Nat) : Nat := rotr 6 x ^^^ rotr 11 x ^^^ rotr 25 x

/-- SHA-256 small sigma 0. -/
def ss0 (x : Nat) : Nat := rotr 7 x ^^^ rotr 18 x ^^^ (x >>> 3)

/-- SHA-256 small sigma 1. -/
def ss1 (x : Nat) : Nat := rotr 17 x ^^^ rotr 19 x ^^^ (x >>> 10)

/-- SHA-256 choice function. -/
def ch (x y z : Nat) : Nat := (x &&& y) ^^^ ((x ^^^ (M32 - 1)) &&& z)

/-- SHA-256 majority function. -/
def maj (x y z : Nat) : Nat := (x &&& y) ^^^ (x &&& z) ^^^ (y &&& z)

/-- The 64 SHA-256 round constants (fractional parts of cube roots of the
first 64 primes). -/
def K : List Nat := [
  1116352408, 1899447441, 3049323471, 3921009573, 961987163,
  1508970993, 2453635748, 2870763221, 3624381080, 310598401,
  607225278, 1426881987, 1925078388, 2162078206, 2614888103,
  3248222580, 3835390401, 4022224774, 264347078, 604807628,
  770255983, 1249150122, 1555081692, 1996064986, 2554220882,
  2821834349, 2952996808, 3210313671, 3336571891, 3584528711,
  113926993, 338241895, 666307205, 773529912, 1294757372,
  1396182291, 1695183700, 1986661051, 2177026350, 2456956037,
  2730485921, 2820302411, 3259730800, 3345764771, 3516065817,
  3600352804, 4094571909, 275423344, 430227734, 506948616,
  659060556, 883997877, 958139571, 1322822218, 1537002063,
  1747873779, 1955562222, 2024104815, 2227730452, 2361852424,
  2428436474, 2756734187, 3204031479, 3329325298]

/-- Initial hash state (fractional parts of square roots of the first 8
primes). -/
def H0 : List Nat := [
  1779033703, 3144134277, 1013904242, 2773480762, 1359893119,
  2600822924, 528734635, 1541459225]

/-- Pad a byte message: append `0x80`, zero bytes to 56 mod 64, then the
bit length as a 64-bit big-endian integer. -/
def pad (msg : List Nat) : List Nat :=
  let len := msg.length
  let zeros := (55 + 64 - (len % 64)) % 64
  let bitLen := len * 8
  msg ++ [0x80] ++ List.replicate zeros 0 ++
    ((List.range 8).map fun i => (bitLen >>> ((7 - i) * 8)) % 256)

/-- Split a list into consecutive blocks of `n` elements, mirroring the
Python idiom `[l[i:i+n] for i in range(0, len(l), n)]` (the last block may
be short; after `pad` every block is exactly 64 bytes). -/
def toBlocks (n : Nat) (l : List α) : List (List α) :=
  (List.range ((l.length + n - 1) / n)).map fun k => (l.drop (k * n)).take n

/-- Combine four bytes into a big-endian 32-bit word. -/
def word (b0 b1 b2 b3 : Nat) : Nat := ((b0 * 256 + b1) * 256 + b2) * 256 + b3

/-- The 16 big-endian words of one 64-byte block. -/
def blockWords (block : List Nat) : List Nat :=
  (List.range 16).map fun i =>
    word (block.getD (4 * i) 0) (block.getD (4 * i + 1) 0)
      (block.getD (4 * i + 2) 0) (block.getD (4 * i + 3) 0)

/-- Extend 16 words to the 64-word message schedule. -/
def schedule (ws : List Nat) : List Nat :=
  (List.range 48).foldl
    (fun acc _ =>
      let n := acc.length
      acc ++ [add32 (add32 (ss1 (acc.getD (n - 2) 0)) (acc.getD (n - 7) 0))
                (add32 (ss0 (acc.getD (n - 15) 0)) (acc.getD (n - 16) 0))])
    ws

/-- One round of the SHA-256 compression function on the 8-word working
state. -/
def round (st : List Nat) (ki wi : Nat) : List Nat :=
  let a := st.getD 0 0
  let b := st.getD 1 0
  let c := st.getD 2 0
  let d := st.getD 3 0
  let e := st.getD 4 0
  let f := st.getD 5 0
  let g := st.getD 6 0
  let h := st.getD 7 0
  let t1 := add32 (add32 (add32 h (bs1 e)) (add32 (ch e f g) ki)) wi
  let t2 := add32 (bs0 a) (maj a b c)
  [add32 t1 t2, a, b, c, add32 d t1, e, f, g]

/-- Compress one 64-byte block into the hash state. -/
def compress (hs : List Nat) (block : List Nat) : List Nat :=
  let w := schedule (blockWords block)
  let st := (List.range 64).foldl
    (fun st i => round st (K.getD i 0) (w.getD i 0)) hs
  (List.range 8).map fun i => add32 (hs.getD i 0) (st.getD i 0)

/-- SHA-256 of a byte list, as the list of 8 hash-state words. -/
def hashWords (msg : List Nat) : List Nat :=
  (toBlocks 64 (pad msg)).foldl compress H0

/-- A lowercase hex digit. -/
def hexDigit (n : Nat) : Char :=
  if n < 10 then Char.ofNat (48 + n) else Char.ofNat (87 + n % 16)

/-- Eight lowercase hex digits of a 32-bit word, most significant first. -/
def wordHex (w : Nat) : List Char :=
  (List.range 8).map fun i => hexDigit ((w >>> ((7 - i) * 4)) % 16)

/-- The 64-character lowercase hex digest of a byte message, as produced
by Python's `hashlib.sha256(...).hexdigest()`. -/
def hexdigest (msg : List Nat) : String :=
  ⟨(hashWords msg).foldr (fun w acc => wordHex w ++ acc) []⟩

end Sha256

/-! ## UTF-8 encoding

Models Python's `str.encode("utf-8")` (`rag_stores.py` hashes
`content.encode('utf-8')`). -/

/-- UTF-8 bytes of a single scalar value. -/
def utf8Char (c : Char) : List Nat :=
  let n := c.toNat
  if n < 0x80 then [n]
  else if n < 0x800 then
    [0xC0 ||| (n >>> 6), 0x80 ||| (n &&& 0x3F)]
  else if n < 0x10000 then
    [0xE0 ||| (n >>> 12), 0x80 ||| ((n >>> 6) &&& 0x3F), 0x80 ||| (n &&& 0x3F)]
  else
    [0xF0 ||| (n >>> 18), 0x80 ||| ((n >>> 12) &&& 0x3F),
     0x80 ||| ((n >>> 6) &&& 0x3F), 0x80 ||| (n &&& 0x3F)]

/-- UTF-8 encoding of a string as a byte list. -/
def utf8Encode (s : String) : List Nat :=
  s.data.foldr (fun c acc => utf8Char c ++ acc) []

/-- `hashlib.sha256(s.encode('utf-8')).hexdigest()`. -/
def sha256Hex (s : String) : String := Sha256.hexdigest (utf8Encode s)

/-! ## Python string primitives

Python strings are sequences of Unicode code points; we model them as
Lean `String` and define slicing, length, case folding and stripping on
the underlying character list, matching Python's semantics (for stripping
and lowering we cover the ASCII range, which is all the pipeline's
literal strings use). -/

/-- Python `len(s)` (number of code points). -/
def strLen (s : String) : Nat := s.data.length

/-- Python `s[:n]`. -/
def strTake (s : String) (n : Nat) : String := ⟨s.data.take n⟩

/-- Python `s[n:]`. -/
def strDrop (s : String) (n : Nat) : String := ⟨s.data.drop n⟩

/-- Python `s.lower()`. -/
def strLower (s : String) : String := ⟨s.data.map Char.toLower⟩

/-- Python `s.strip()` (whitespace at both ends). -/
def strStrip (s : String) : String :=
  ⟨((s.data.dropWhile Char.isWhitespace).reverse.dropWhile
      Char.isWhitespace).reverse⟩

/-- Python `s.startswith(p)`. -/
def strStartsWith (s p : String) : Bool := p.data.isPrefixOf s.data

/-- The suffix of `l` after the first occurrence of `pat`, if any. -/
def afterFirst (pat : List Char) : List Char → Option (List Char)
  | [] => none
  | c :: rest =>
    if pat.isPrefixOf (c :: rest) then some ((c :: rest).drop pat.length)
    else afterFirst pat rest

/-- Python `p in s` (substring containment, for non-empty `p`). -/
def strContains (s p : String) : Bool := (afterFirst p.data s.data).isSome

/-- Models `urllib.parse.urlparse(url).netloc` for absolute URLs that
contain `"://"`: the text between the first `"://"` and the next `/`,
`?` or `#` (empty when the URL has no `"://"`). -/
def netloc (url : String) : String :=
  match afterFirst "://".data url.data with
  | none => ""
  | some r => ⟨r.takeWhile fun c => c ≠ '/' ∧ c ≠ '?' ∧ c ≠ '#'⟩

/-! ## Retrieval store (`gemini/rag_store/rag_stores.py`)

`generate_document_id`, `generate_ids_for_documents`, the chunking logic
of `save_scraped_content`, and `create_documents`.  The Chroma collection
is external; per the consumed contract (§6 of the spec: `upsert(chunks,
metadata)`, idempotent on content hash) we model it as an id-keyed store
whose `add` overwrites an existing id instead of creating a second entry. -/

/-- `generate_document_id`: `"doc_"` followed by the first 16 hex digits
of the SHA-256 of the content. -/
def generate_document_id (content : String) : String :=
  "doc_" ++ strTake (sha256Hex content) 16

/-- `generate_ids_for_documents`. -/
def generate_ids_for_documents (documents : List String) : List String :=
  documents.map generate_document_id

/-- The chunk list of one text: `[content[i:i+1000] for i in
range(0, len(content), 1000)]` from `save_scraped_content`. -/
def chunkSize : Nat := 1000

/-- `chunksOfText content` lists the consecutive 1000-character slices of
`content` (empty for the empty string, exactly as Python's `range(0, 0,
1000)` is empty). -/
def chunksOfText (content : String) : List String :=
  (List.range ((strLen content + chunkSize - 1) / chunkSize)).map fun k =>
    strTake (strDrop content (k * chunkSize)) chunkSize

/-- Chunk metadata assigned by `save_scraped_content`. -/
structure ChunkMeta where
  url : String
  chunk_index : Nat
  total_chunks : Nat
  source_type : String
  saved_at : String
deriving DecidableEq, Repr

/-- The `documents` list built by `save_scraped_content` over the scraped
mapping (a Python dict, modelled as an insertion-ordered association
list). -/
def scrapedDocuments (scraped : List (String × String)) : List String :=
  scraped.foldr (fun p acc => chunksOfText p.2 ++ acc) []

/-- The `metadatas` list built by `save_scraped_content`, aligned with
`scrapedDocuments` (`now` stands for `datetime.now().isoformat()`). -/
def scrapedMetadatas (now : String) (scraped : List (String × String)) :
    List ChunkMeta :=
  scraped.foldr
    (fun p acc =>
      (let chunks := chunksOfText p.2
       (List.range chunks.length).map fun i =>
        { url := p.1, chunk_index := i, total_chunks := chunks.length,
          source_type := "web_scrape", saved_at := now }) ++ acc) []

/-- Result dictionary of `create_documents` / `save_scraped_content`. -/
structure SaveResult where
  success : Bool
  error : Option String
  document_ids : List String
  count : Nat
deriving DecidableEq, Repr

/-- `create_documents` (ids not supplied, as called by
`save_scraped_content`): fails on an empty document list, otherwise
generates content-hash ids and adds to the collection.  `addOk` is the
oracle for the external `research_collection.add` call (`False` models it
raising). -/
def create_documents (addOk : Bool) (documents : List String) : SaveResult :=
  if documents.isEmpty then
    { success := false, error := some "No documents provided",
      document_ids := [], count := 0 }
  else
    let ids := generate_ids_for_documents documents
    if addOk then
      { success := true, error := none, document_ids := ids,
        count := documents.length }
    else
      { success := false, error := some "Failed to create documents: add failed",
        document_ids := [], count := 0 }

/-- `save_scraped_content`: chunk every text, build metadata, and call
`create_documents`. -/
def save_scraped_content (addOk : Bool) (scraped : List (String × String)) :
    SaveResult :=
  if scraped.isEmpty then
    { success := false, error := some "No scraped content provided",
      document_ids := [], count := 0 }
  else
    create_documents addOk (scrapedDocuments scraped)

/-- The retrieval store, keyed by document id.  `storeAdd` models the
collection's id-keyed write: an existing id is overwritten (upsert,
idempotent on the content hash), a fresh id is appended. -/
def storeAdd (store : List (String × String)) (id doc : String) :
    List (String × String) :=
  if store.any (fun p => p.1 = id) then
    store.map fun p => if p.1 = id then (id, doc) else p
  else store ++ [(id, doc)]

/-- Add a list of documents to the store under their generated ids, in
order (the collection-level effect of a successful `create_documents`). -/
def storeAddDocs (store : List (String × String)) (documents : List String) :
    List (String × String) :=
  documents.foldl (fun st doc => storeAdd st (generate_document_id doc) doc) store

/-- The collection state after indexing a scraped mapping once. -/
def indexScraped (store : List (String × String))
    (scraped : List (String × String)) : List (String × String) :=
  storeAddDocs store (scrapedDocuments scraped)

/-! ## News results (`research_base.py`)

The raw DDGS news item shape, the pipeline's direct field mapping
(`research_agent_stream`, step 9) and the `_normalize_news_results`
helper. -/

/-- A raw DDGS news result (each field may be missing, as probed with
`item.get(...)`). -/
structure RawNews where
  date : Option String := none
  title : Option String := none
  body : Option String := none
  url : Option String := none
  image : Option String := none
  source : Option String := none
deriving DecidableEq, Repr

/-- A pipeline news item, as built by the direct mapping in step 9 of
`research_agent_stream`. -/
structure NewsItem where
  date : Option String
  title : String
  body : String
  url : String
  image : Option String
  source : String
deriving DecidableEq, Repr

/-- The step-9 mapping: `news_results.append({...})` with the literal
`get` defaults of the source. -/
def mapNewsItem (item : RawNews) : NewsItem :=
  { date := item.date, title := item.title.getD "Untitled",
    body := item.body.getD "", url := item.url.getD "",
    image := item.image, source := item.source.getD "Unknown" }

/-- A normalized news item as produced by `_normalize_news_results`. -/
structure NormNews where
  date : String
  title : String
  body : String
  url : String
  image : Option String
  source : String
  domain : String
deriving DecidableEq, Repr

/-- Loop body of `_normalize_news_results`: skip items without an
`http(s)` URL or with an already-seen (or empty) domain, append the
normalized record, and stop once 5 items are collected. -/
def normNewsAux (seen : List String) (acc : List NormNews) :
    List RawNews → List NormNews
  | [] => acc.reverse
  | item :: rest =>
    let title := strStrip (item.title.getD "")
    let body := strStrip (item.body.getD "")
    let url := strStrip (item.url.getD "")
    let date := strStrip (item.date.getD "")
    let source := strStrip (item.source.getD "")
    if url = "" ∨ ¬ strStartsWith (strLower url) "http" then
      normNewsAux seen acc rest
    else
      let domain := strLower (netloc url)
      if domain = "" ∨ domain ∈ seen then normNewsAux seen acc rest
      else
        let acc2 := ({ date := date, title := title, body := body, url := url,
                       image := item.image,
                       source := if source = "" then domain else source,
                       domain := domain } : NormNews) :: acc
        if 5 ≤ acc2.length then acc2.reverse
        else normNewsAux (domain :: seen) acc2 rest

/-- `_normalize_news_results`: dedupe DDGS news results by URL domain,
first-seen wins, preserving order, capped at 5.  (The `try/except` that
skips malformed items has no effect in the typed model.) -/
def normalize_news_results (raw : List RawNews) : List NormNews :=
  normNewsAux [] [] raw

/-! ## Pipeline data model (`research_agent_stream`) -/

/-- One DDGS web search result, probed with `result.get("href")`,
`result.get("title", "")`, `result.get("body", "")`; a missing field is
modelled as `""` (both are falsy / default to `""` at every use site). -/
structure WebResult where
  href : String := ""
  title : String := ""
  body : String := ""
deriving DecidableEq, Repr

/-- One retrieval-store hit (`query_documents` result item); only the
`content` field is read by the pipeline (ids/distances/metadata are
ignored there). -/
structure RagHit where
  content : String
deriving DecidableEq, Repr

/-- The dictionary returned by `query_documents`, as probed with
`rag_results.get("success")` / `rag_results.get("results", [])`. -/
structure RagQueryRes where
  success : Bool
  results : List RagHit
deriving DecidableEq, Repr

/-- One DDGS image result as probed in step 8
(`img_result.get("image") or img_result.get("url")`,
`img_result.get("title", "")`). -/
structure ImgResult where
  image : Option String := none
  url : Option String := none
  title : String := ""
deriving DecidableEq, Repr

/-- `img_result.get("image") or img_result.get("url")` with Python
falsiness (an empty string falls through, a missing second key gives ""). -/
def imageUrlOf (r : ImgResult) : String :=
  let a := r.image.getD ""
  if a ≠ "" then a else r.url.getD ""

/-- A saved image record (step 8); only the source `url` is read by the
later stages modelled here (`all_resources`, counts). -/
structure SavedImage where
  url : String
  title : String
deriving DecidableEq, Repr

/-- A processed YouTube video (step 9.5).  The per-video detail fetch is
external; the pipeline only reads `url` and `title`/`channel` fields in
the stages modelled here. -/
structure Video where
  url : String
  title : String := ""
  channel : String := ""
deriving DecidableEq, Repr

/-- The terminal `result` payload fields referenced by the claims
(`answer`, `sources`, the news items, and the counts); the remaining
payload entries (images, youtube/news file pointers, references,
transcript-file info, timings) are not mentioned by any claim and are
omitted from the model. -/
structure ResultData where
  answer : String
  sources : List String
  newsItems : List NewsItem
  sourcesCount : Nat
  newsCount : Nat
  youtubeCount : Nat
deriving DecidableEq, Repr

/-- An event of the research stream: a `progress_callback` message, a
yielded `answer_chunk`, a yielded `error`, or the terminal `result`. -/
inductive Event
  | progress (stage : String) (msg : String)
  | answerChunk (chunk : String)
  | error (msg : String)
  | result (data : ResultData)
deriving DecidableEq, Repr

/-- Research session status (`research_sessions.status`). -/
inductive SessionStatus
  | running
  | completed
  | failed
deriving DecidableEq, Repr

/-- The research session row fields the pipeline writes
(`create_research_session` / `update_research_status`); `metadataError`
is `metadata["error"]` when present. -/
structure SessionRow where
  status : SessionStatus
  answer : Option String
  resources : List String
  metadataError : Option String
deriving DecidableEq, Repr

/-- Which external collaborators the run invoked. -/
structure Calls where
  safety : Bool := false
  analyze : Bool := false
  webSearch : Bool := false
  scrape : Bool := false
  ragSave : Bool := false
  ragQuery : Bool := false
  imageSearch : Bool := false
  newsSearch : Bool := false
  youtubeSearch : Bool := false
  gen : Bool := false
deriving DecidableEq, Repr

/-- Oracle for every external call of one run.  An `Except` value models
a call that may raise; calls whose exceptions the source catches locally
are given as plain values (their internal failure handling is already
folded into the returned default, mirroring the source's `except`
blocks). -/
structure Env where
  /-- `create_research_session` succeeds (else the slug stays `None`). -/
  createOk : Bool
  /-- `check_sexual_content` outcome (its fail-open `except` is folded
  into `false`). -/
  sexualDetected : Bool
  /-- `analyze_query_needs` outcome (parse-failure defaults folded in). -/
  needsImages : Bool
  needsNews : Bool
  isClear : Bool
  /-- `generate_sub_questions` parsed list (before the `[:5]` cap). -/
  subQuestions : List String
  /-- `web_search(...)`: the only pre-scrape call whose exception is NOT
  caught by `research_agent_stream`. -/
  webSearch : Except String (List WebResult)
  /-- `scrape_urls(urls[:5])` raising (caught: scraped content `{}`). -/
  scrapeRaise : Bool
  /-- `scrape_urls(urls[:5])` result (url → formatted text, insertion
  order), before the `Error:` filtering done by the pipeline. -/
  scraped : List (String × String)
  /-- `research_collection.add` succeeding inside `save_scraped_content`. -/
  storeAddOk : Bool
  /-- `query_documents(query, max_results=5)` outcome (it catches its own
  exceptions, returning `success=False`). -/
  ragQuery : RagQueryRes
  /-- `image_search(query, max_results=5)`: NOT wrapped in `try` in step 8,
  so an exception propagates. -/
  imageSearch : Except String (List ImgResult)
  /-- `save_image_to_bucket` success per image index (caught per image). -/
  imageSaveOk : Nat → Bool
  /-- `news_search(...)` outcome (the whole step-9 block is in `try`). -/
  rawNews : Except String (List RawNews)
  /-- `save_news_to_bucket` success. -/
  newsSaveOk : Bool
  /-- Step 9.5 block raising anywhere (caught; `saved_videos` stays `[]`). -/
  videosRaise : Bool
  /-- The processed videos of step 9.5 (top-2 processing of the external
  search and detail fetches). -/
  videos : List Video
  /-- `save_youtube_videos_to_bucket` success. -/
  youtubeSaveOk : Bool
  /-- The text fragments of `generate_content_stream` before any error. -/
  genChunks : List String
  /-- A mid-stream generation exception after the listed fragments
  (`none` = the stream finishes normally). -/
  genErr : Option String
  /-- `datetime.now().isoformat()` during the RAG save. -/
  now : String

/-- Everything one run produces: the emitted events (progress callbacks
and yields, in emission order), an uncaught exception if one escaped the
generator, the session row (`none` when creation failed), how many times
`update_research_status` was called, which collaborators were invoked,
and the assembled context when step 10 was reached. -/
structure RunOut where
  events : List Event
  raised : Option String
  db : Option SessionRow
  updates : Nat
  calls : Calls
  contextUsed : Option String
deriving Repr

/-! ## Pipeline helpers (literal translations from `research_agent_stream`) -/

/-- The safety refusal message (step "Safety check"). -/
def refusalMsg : String :=
  "This query appears to contain sexual content that can\x27t be processed."

/-- The no-web-results message. -/
def noResultsMsg : String :=
  "No relevant information found. Please try rephrasing your query."

/-- The unclear-query message (step 7). -/
def unclearMsg : String :=
  "I\x27m not sure what you mean. Please try again with a more specific query."

/-- `urls = [result.get("href", "") for result in web_results if
result.get("href")]` — also the `ref_links` loops, which collect the same
non-empty `href` fields. -/
def urlsOf (web : List WebResult) : List String :=
  web.filterMap fun r => if r.href ≠ "" then some r.href else none

/-- The scraped mapping after the pipeline's own handling: `{}` when
`scrape_urls` raised, and entries whose content starts with `"Error:"`
filtered out. -/
def scrapedOf (env : Env) : List (String × String) :=
  (if env.scrapeRaise then [] else env.scraped).filter fun p =>
    ¬ strStartsWith p.2 "Error:"

/-- `research_metadata["sources"]` after step 5: the scraped URLs when
the save was attempted (non-empty scraped content) and succeeded, else
`[]`. -/
def sourcesOf (env : Env) (scraped : List (String × String)) : List String :=
  if scraped ≠ [] ∧ (save_scraped_content env.storeAddOk scraped).success then
    scraped.map Prod.fst
  else []

/-- Step 8: the top-3 image results whose URL is truthy and whose bucket
save succeeded. -/
def savedImagesOf (env : Env) (imgs : List ImgResult) : List SavedImage :=
  (imgs.take 3).enum.filterMap fun p =>
    let u := imageUrlOf p.2
    if u ≠ "" ∧ env.imageSaveOk p.1 = true then some ⟨u, p.2.title⟩ else none

/-- Step 9: `news_results` (the direct mapping of the raw news list; `[]`
when `news_search` raised, since the list is filled inside the `try`). -/
def newsResultsOf (env : Env) : List NewsItem :=
  match env.rawNews with
  | .ok l => l.map mapNewsItem
  | .error _ => []

/-- Step 9.5: `saved_videos` (predefined `[]`, left empty when the block
raises). -/
def savedVideosOf (env : Env) : List Video :=
  if env.videosRaise then [] else env.videos

/-- `research_metadata["youtube"]["videos"]`: set only when videos were
found and their bucket save succeeded, else the metadata stays `{}` and
`get("videos", [])` yields `[]`. -/
def youtubeVideosMeta (env : Env) : List Video :=
  if env.videosRaise then []
  else if env.videos ≠ [] ∧ env.youtubeSaveOk then env.videos
  else []

/-- Step 10, first tier: RAG hit snippets, `f"Source: {content[:500]}"`
for the top 3 hits with non-empty content, guarded by
`rag_results.get("success") and rag_results.get("results")`. -/
def contextRagParts (rag : RagQueryRes) : List String :=
  if rag.success = true ∧ rag.results ≠ [] then
    (rag.results.take 3).filterMap fun r =>
      if r.content ≠ "" then some ("Source: " ++ strTake r.content 500)
      else none
  else []

/-- Step 10, second tier (appended, not an `else` of the first):
`f"Source ({url}): {str(content)[:500]}"` for the top 3 scraped entries
with non-empty, non-`Error:` content. -/
def contextScrapedParts (scraped : List (String × String)) : List String :=
  (scraped.take 3).filterMap fun p =>
    if p.2 ≠ "" ∧ ¬ strStartsWith p.2 "Error:" then
      some ("Source (" ++ p.1 ++ "): " ++ strTake p.2 500)
    else none

/-- Step 10, third tier: `f"Source: {title}\n{body[:300]}"` for the top 3
web results with a non-empty title or body. -/
def contextWebParts (web : List WebResult) : List String :=
  (web.take 3).filterMap fun r =>
    if r.title ≠ "" ∨ r.body ≠ "" then
      some ("Source: " ++ r.title ++ "\n" ++ strTake r.body 300)
    else none

/-- `context_parts`: RAG parts, then scraped parts, then — only `if not
context_parts and web_results` — the raw web-search parts. -/
def contextParts (rag : RagQueryRes) (scraped : List (String × String))
    (web : List WebResult) : List String :=
  let base := contextRagParts rag ++ contextScrapedParts scraped
  base ++ (if base = [] ∧ web ≠ [] then contextWebParts web else [])

/-- `context`: the joined parts, or the literal general-knowledge
placeholder when no part was produced. -/
def assembledContext (rag : RagQueryRes) (scraped : List (String × String))
    (web : List WebResult) : String :=
  let parts := contextParts rag scraped web
  if parts ≠ [] then String.intercalate "\n\n" parts
  else "No specific sources found, but conducting research based on general knowledge."

/-- The streaming loop: `full_answer += chunk.text` and one
`answer_chunk` yield per fragment with truthy (non-empty) text. -/
def streamChunks (chunks : List String) : String × List Event :=
  chunks.foldl
    (fun acc c =>
      if c ≠ "" then (acc.1 ++ c, acc.2 ++ [Event.answerChunk c]) else acc)
    ("", [])

/-- The `result` payload (restricted to the modelled fields; `newsCount`
reproduces the literal `len(news_results) if needs_news else 0`). -/
def mkResultData (answer : String) (sources : List String)
    (newsItems : List NewsItem) (needsNews : Bool) (videoCount : Nat) :
    ResultData :=
  { answer := answer, sources := sources, newsItems := newsItems,
    sourcesCount := sources.length,
    newsCount := if needsNews then newsItems.length else 0,
    youtubeCount := videoCount }

/-- The session row right after `create_research_session` (`none` when
creation failed and the slug stayed `None`). -/
def dbRunning (createOk : Bool) : Option SessionRow :=
  if createOk then
    some { status := .running, answer := none, resources := [],
           metadataError := none }
  else none

/-- `update_research_status(status="failed", answer=None, ...)` — only
performed when a slug exists. -/
def dbFail (createOk : Bool) (err : String) (resources : List String) :
    Option SessionRow :=
  if createOk then
    some { status := .failed, answer := none, resources := resources,
           metadataError := some err }
  else none

/-- `update_research_status(status="completed", ...)`. -/
def dbCompleted (createOk : Bool) (answer : String)
    (resources : List String) : Option SessionRow :=
  if createOk then
    some { status := .completed, answer := some answer,
           resources := resources, metadataError := none }
  else none

/-- One status update happens exactly when a slug exists. -/
def updOne (createOk : Bool) : Nat := if createOk then 1 else 0

/-! ## The research pipeline (`research_agent_stream`)

Translated stage by stage; the continuation after the ambiguity gate is
split into named functions (`streamFromMedia`, `streamTail`) purely for
proof structure — together they are the one Python generator. -/

/-- Steps 9–10 and the streaming loop: news/videos (exceptions caught),
context assembly, answer synthesis (uncaught mid-stream exception),
transcript save, final session update and the terminal `result`. -/
def streamTail (env : Env) (web : List WebResult)
    (scraped : List (String × String)) (sources : List String)
    (savedImages : List SavedImage) (evts : List Event) (calls : Calls) :
    RunOut :=
  let evts2 := evts ++
    [.progress "news_search" "Searching recent news sources...",
     .progress "youtube_search" "Searching for relevant YouTube videos...",
     .progress "analyzing_data" "Analyzing collected data...",
     .progress "generating" "Generating structured research report..."]
  let calls2 :=
    { calls with newsSearch := true, youtubeSearch := true, gen := true }
  let ctx := assembledContext env.ragQuery scraped web
  let streamed := streamChunks env.genChunks
  match env.genErr with
  | some m =>
    { events := evts2 ++ streamed.2, raised := some m,
      db := dbRunning env.createOk, updates := 0, calls := calls2,
      contextUsed := some ctx }
  | none =>
    let newsItems := newsResultsOf env
    let resources := sources ++ savedImages.map SavedImage.url ++ urlsOf web
      ++ (youtubeVideosMeta env).filterMap
          (fun v => if v.url ≠ "" then some v.url else none)
      ++ newsItems.filterMap
          (fun n => if n.url ≠ "" then some n.url else none)
    { events := evts2 ++ streamed.2 ++
        [.progress "saving" "Saving research transcript...",
         .result (mkResultData streamed.1 sources newsItems env.needsNews
                    (savedVideosOf env).length)],
      raised := none,
      db := dbCompleted env.createOk streamed.1 resources,
      updates := updOne env.createOk, calls := calls2,
      contextUsed := some ctx }

/-- Step 8 (optional image search — `image_search` is not wrapped in
`try`, so its exception escapes the generator), then the tail. -/
def streamFromMedia (env : Env) (web : List WebResult)
    (scraped : List (String × String)) (sources : List String)
    (evts : List Event) (calls : Calls) : RunOut :=
  if env.needsImages then
    let evtsI := evts ++
      [.progress "image_search" "Searching for relevant images..."]
    match env.imageSearch with
    | .error m =>
      { events := evtsI, raised := some m, db := dbRunning env.createOk,
        updates := 0, calls := { calls with imageSearch := true },
        contextUsed := none }
    | .ok imgs =>
      streamTail env web scraped sources (savedImagesOf env imgs) evtsI
        { calls with imageSearch := true }
  else
    streamTail env web scraped sources [] evts calls

/-- Steps 4–7 (scrape, RAG save, RAG query, relevance/ambiguity gate) and
the terminal `result` of the empty-`urls` path, then the media/synthesis
tail. -/
def streamFromScraping (env : Env) (web : List WebResult) : RunOut :=
  let urls := urlsOf web
  let scrapingEvt :=
    Event.progress "scraping" ("Scraping " ++ toString urls.length ++ " URLs...")
  if urls = [] then
    { events := [scrapingEvt, .result (mkResultData "" [] [] env.needsNews 0)],
      raised := none, db := dbRunning env.createOk, updates := 0,
      calls := { safety := true, analyze := true, webSearch := true },
      contextUsed := none }
  else
    let scraped := scrapedOf env
    let sources := sourcesOf env scraped
    let preEvents := [scrapingEvt,
      .progress "saving" "Saving scraped content to knowledge base...",
      .progress "rag_query" "Querying knowledge base for relevant information..."]
    let callsBase : Calls :=
      { safety := true, analyze := true, webSearch := true, scrape := true,
        ragSave := !scraped.isEmpty, ragQuery := true }
    if ¬ (scraped ≠ [] ∨ (env.ragQuery.success = true ∧ env.ragQuery.results ≠ []))
        ∧ ¬ env.isClear then
      { events := preEvents ++ [.error unclearMsg], raised := none,
        db := dbFail env.createOk "unclear_query" (urlsOf web),
        updates := updOne env.createOk, calls := callsBase,
        contextUsed := none }
    else
      streamFromMedia env web scraped sources preEvents callsBase

/-- `research_agent_stream`: session creation (failure caught), safety
gate, query analysis, sub-questions, mandatory web search (the one
uncaught pre-scrape call), then the scraping stage. -/
def research_agent_stream (env : Env) : RunOut :=
  if env.sexualDetected then
    { events := [.error refusalMsg], raised := none,
      db := dbFail env.createOk "sexual_content_detected" [],
      updates := updOne env.createOk, calls := { safety := true },
      contextUsed := none }
  else
    match env.webSearch with
    | .error m =>
      { events := [], raised := some m, db := dbRunning env.createOk,
        updates := 0,
        calls := { safety := true, analyze := true, webSearch := true },
        contextUsed := none }
    | .ok web =>
      if web = [] then
        { events := [.error noResultsMsg], raised := none,
          db := dbFail env.createOk "no_web_results" [],
          updates := updOne env.createOk,
          calls := { safety := true, analyze := true, webSearch := true },
          contextUsed := none }
      else streamFromScraping env web

/-! ## The gateway delivery loop (`gateway.py`, `websocket_research`)

Each update is forwarded to the client; the loop breaks after the first
`error` or `result`; an exception escaping the generator is answered with
a single `"Research failed: ..."` error event. -/

/-- Terminal events end the `async for` loop. -/
def isTerminal : Event → Bool
  | .error _ => true
  | .result _ => true
  | _ => false

/-- Forward events until (and including) the first terminal one. -/
def deliverLoop : List Event → List Event
  | [] => []
  | e :: rest => if isTerminal e then [e] else e :: deliverLoop rest

/-- The event sequence the WebSocket client receives for one run. -/
def websocket_research (r : RunOut) : List Event :=
  match r.raised with
  | none => deliverLoop r.events
  | some m => deliverLoop r.events ++ [.error ("Research failed: " ++ m)]

/-- Concatenation of the `chunk` fields of the `answer_chunk` events, in
delivery order. -/
def chunkConcat (events : List Event) : String :=
  events.foldl
    (fun acc e => match e with | .answerChunk c => acc ++ c | _ => acc) ""

/-! ## Derived definitions used by the verification -/

/-- In-order concatenation of a list of strings. -/
def joinStrings (l : List String) : String := l.foldr (· ++ ·) ""

/-- The pointwise normalization performed by `_normalize_news_results` on
one (not necessarily kept) item. -/
def normItem (item : RawNews) : NormNews :=
  let url := strStrip (item.url.getD "")
  let domain := strLower (netloc url)
  let source := strStrip (item.source.getD "")
  { date := strStrip (item.date.getD ""),
    title := strStrip (item.title.getD ""),
    body := strStrip (item.body.getD ""), url := url, image := item.image,
    source := if source = "" then domain else source, domain := domain }

/-- Event classifiers for the stream-shape lemmas. -/
def Event.isProgress : Event → Bool
  | .progress _ _ => true
  | _ => false

/-- `answer_chunk` classifier. -/
def Event.isChunk : Event → Bool
  | .answerChunk _ => true
  | _ => false

/-- `error` classifier. -/
def Event.isError : Event → Bool
  | .error _ => true
  | _ => false

/-- The literal general-knowledge placeholder of step 10. -/
def placeholderContext : String :=
  "No specific sources found, but conducting research based on general knowledge."

/-- A fully healthy environment: session created, safe query, one web
result, one scraped page, a retrieval-store hit, no media, a two-fragment
generation stream.  Concrete variations of it serve as witnesses and
counterexamples below. -/
def okEnv : Env :=
  { createOk := true, sexualDetected := false, needsImages := false,
    needsNews := false, isClear := true, subQuestions := [],
    webSearch := .ok [{ href := "http://a.com", title := "t", body := "b" }],
    scrapeRaise := false, scraped := [("http://a.com", "content")],
    storeAddOk := true,
    ragQuery := { success := true, results := [⟨"rag content"⟩] },
    imageSearch := .ok [], imageSaveOk := fun _ => false,
    rawNews := .ok [], newsSaveOk := true, videosRaise := false,
    videos := [], youtubeSaveOk := true,
    genChunks := ["Hello ", "world"], genErr := none, now := "T0" }

/-- A run where scraping yields nothing, the store has no hits, and the
analyzer marked the query unclear (web result still has title/body). -/
def unclearEnv : Env :=
  { okEnv with scraped := [], ragQuery := ⟨true, []⟩, isClear := false }

/-- A clear-query run with zero content from every tier: the web result
has an href but empty title and body, scraping yields nothing, the store
has no hits. -/
def noContentEnv : Env :=
  { okEnv with webSearch := .ok [{ href := "http://a.com", title := "", body := "" }], scraped := [], ragQuery := ⟨true, []⟩ }

/-- Two raw news items sharing the domain `a.com` (for the
news-deduplication analysis). -/
def rawNewsA : RawNews := { url := some "http://a.com/x", title := some "n1" }

/-- Second same-domain raw news item. -/
def rawNewsB : RawNews := { url := some "http://a.com/y", title := some "n2" }

/-- A healthy run whose news search returns two same-domain items. -/
def newsDupEnv : Env := { okEnv with rawNews := .ok [rawNewsA, rawNewsB] }

/-- The pipeline mapping of `rawNewsA`. -/
def newsItemA : NewsItem :=
  { date := none, title := "n1", body := "", url := "http://a.com/x",
    image := none, source := "Unknown" }

/-- The pipeline mapping of `rawNewsB`. -/
def newsItemB : NewsItem :=
  { date := none, title := "n2", body := "", url := "http://a.com/y",
    image := none, source := "Unknown" }

/-- The four progress events emitted between the ambiguity gate (plus
optional image search) and the generation stream. -/
def mediaProgress : List Event :=
  [.progress "news_search" "Searching recent news sources...",
   .progress "youtube_search" "Searching for relevant YouTube videos...",
   .progress "analyzing_data" "Analyzing collected data...",
   .progress "generating" "Generating structured research report..."]

/-- The progress events emitted before the ambiguity gate. -/
def preGateProgress (web : List WebResult) : List Event :=
  [.progress "scraping" ("Scraping " ++ toString (urlsOf web).length ++ " URLs..."),
   .progress "saving" "Saving scraped content to knowledge base...",
   .progress "rag_query" "Querying knowledge base for relevant information..."]

/-- The `Calls` record at the ambiguity gate. -/
def preGateCalls (scraped : List (String × String)) : Calls :=
  { safety := true, analyze := true, webSearch := true, scrape := true,
    ragSave := !scraped.isEmpty, ragQuery := true }

/-! ## Shared lemmas: strings and event streams -/

/-- The SHA-256 embedding agrees with the FIPS 180-4 test vectors for
`"abc"` and the empty message. -/
theorem sha256Hex_test_vectors :
    sha256Hex "abc" =
      "ba7816bf8f01cfea414140de5dae2223b00361a396177a9cb410ff61f20015ad" ∧
    sha256Hex "" =
      "e3b0c44298fc1c149afbf4c8996fb92427ae41e4649b934ca495991b7852b855" :=
  ⟨by decide, by decide⟩

theorem str_append_data (a b : String) : (a ++ b).data = a.data ++ b.data := rfl

theorem str_empty_append (a : String) : "" ++ a = a := by
  cases a
  rfl

theorem str_append_empty (a : String) : a ++ "" = a := by
  cases a
  show String.mk _ = _
  simp

theorem str_ext (a b : String) (h : a.data = b.data) : a = b := by
  cases a
  cases b
  simp only at h
  rw [h]

theorem str_append_assoc (a b c : String) :
    a ++ b ++ c = a ++ (b ++ c) := by
  apply str_ext
  simp [str_append_data]

theorem deliverLoop_append (l r : List Event)
    (h : ∀ e ∈ l, isTerminal e = false) :
    deliverLoop (l ++ r) = l ++ deliverLoop r := by
  induction l with
  | nil => simp
  | cons e rest ih =>
    have he : isTerminal e = false := h e (by simp)
    simp only [List.cons_append, deliverLoop, he, Bool.false_eq_true, if_false]
    exact congrArg (e :: ·) (ih fun x hx => h x (by simp [hx]))

theorem deliverLoop_eq_self (l : List Event)
    (h : ∀ e ∈ l, isTerminal e = false) : deliverLoop l = l := by
  have := deliverLoop_append l [] h
  simpa [deliverLoop] using this

theorem chunkConcat_go (l : List Event) (acc : String) :
    List.foldl
      (fun acc e => match e with | Event.answerChunk c => acc ++ c | _ => acc)
      acc l = acc ++ chunkConcat l := by
  induction l generalizing acc with
  | nil => simp [chunkConcat, str_append_empty]
  | cons e rest ih =>
    cases e with
    | answerChunk c =>
      simp only [chunkConcat, List.foldl_cons]
      rw [ih (acc ++ c), ih ("" ++ c), str_empty_append, str_append_assoc]
    | progress s m =>
      simp only [chunkConcat, List.foldl_cons]
      rw [ih acc, ih ""]
      simp [str_empty_append]
    | error m =>
      simp only [chunkConcat, List.foldl_cons]
      rw [ih acc, ih ""]
      simp [str_empty_append]
    | result d =>
      simp only [chunkConcat, List.foldl_cons]
      rw [ih acc, ih ""]
      simp [str_empty_append]

theorem chunkConcat_append (a b : List Event) :
    chunkConcat (a ++ b) = chunkConcat a ++ chunkConcat b := by
  simp only [chunkConcat, List.foldl_append]
  exact chunkConcat_go b _

theorem chunkConcat_of_no_chunks (l : List Event)
    (h : ∀ e ∈ l, e.isChunk = false) : chunkConcat l = "" := by
  induction l with
  | nil => rfl
  | cons e rest ih =>
    have he := h e (by simp)
    cases e with
    | answerChunk c => simp [Event.isChunk] at he
    | progress s m =>
      simp only [chunkConcat, List.foldl_cons]
      exact ih fun x hx => h x (by simp [hx])
    | error m =>
      simp only [chunkConcat, List.foldl_cons]
      exact ih fun x hx => h x (by simp [hx])
    | result d =>
      simp only [chunkConcat, List.foldl_cons]
      exact ih fun x hx => h x (by simp [hx])

theorem streamChunks_go (cs : List String) (p : String × List Event)
    (h1 : chunkConcat p.2 = p.1)
    (h2 : ∀ e ∈ p.2, e.isChunk = true) :
    chunkConcat (cs.foldl
        (fun acc c =>
          if c ≠ "" then (acc.1 ++ c, acc.2 ++ [Event.answerChunk c]) else acc)
        p).2 =
      (cs.foldl
        (fun acc c =>
          if c ≠ "" then (acc.1 ++ c, acc.2 ++ [Event.answerChunk c]) else acc)
        p).1 ∧
    ∀ e ∈ (cs.foldl
        (fun acc c =>
          if c ≠ "" then (acc.1 ++ c, acc.2 ++ [Event.answerChunk c]) else acc)
        p).2, e.isChunk = true := by
  induction cs generalizing p with
  | nil => exact ⟨h1, h2⟩
  | cons c rest ih =>
    simp only [List.foldl_cons]
    by_cases hc : c = ""
    · simp only [hc, ne_eq, not_true_eq_false, if_false]
      exact ih p h1 h2
    · simp only [ne_eq, hc, not_false_eq_true, if_true]
      refine ih _ ?_ ?_
      · rw [chunkConcat_append, h1]
        simp [chunkConcat, str_empty_append]
      · intro e he
        rcases List.mem_append.mp he with h | h
        · exact h2 e h
        · simp only [List.mem_singleton] at h
          simp [h, Event.isChunk]

theorem streamChunks_concat (cs : List String) :
    chunkConcat (streamChunks cs).2 = (streamChunks cs).1 :=
  (streamChunks_go cs ("", []) rfl (by simp)).1

theorem streamChunks_all_chunks (cs : List String) :
    ∀ e ∈ (streamChunks cs).2, e.isChunk = true :=
  (streamChunks_go cs ("", []) rfl (by simp)).2

theorem isChunk_not_terminal (e : Event) (h : e.isChunk = true) :
    isTerminal e = false := by
  cases e <;> simp_all [Event.isChunk, isTerminal]

theorem isChunk_not_error (e : Event) (h : e.isChunk = true) :
    e.isError = false := by
  cases e <;> simp_all [Event.isChunk, Event.isError]

/-! ## Stage equations for `research_agent_stream` -/

theorem research_agent_stream_eq_scraping (env : Env) (web : List WebResult)
    (h1 : env.sexualDetected = false) (h2 : env.webSearch = .ok web)
    (h3 : web ≠ []) :
    research_agent_stream env = streamFromScraping env web := by
  simp [research_agent_stream, h1, h2, h3]

theorem streamFromScraping_gate_closed (env : Env) (web : List WebResult)
    (h4 : urlsOf web ≠ [])
    (h5 : ¬ (scrapedOf env ≠ [] ∨
      (env.ragQuery.success = true ∧ env.ragQuery.results ≠ [])) ∧
      ¬ env.isClear = true) :
    streamFromScraping env web =
      { events := preGateProgress web ++ [.error unclearMsg], raised := none,
        db := dbFail env.createOk "unclear_query" (urlsOf web),
        updates := updOne env.createOk,
        calls := preGateCalls (scrapedOf env), contextUsed := none } := by
  simp only [streamFromScraping, h4, if_neg (by simpa using h4), h5, if_pos,
    preGateProgress, preGateCalls]
  rfl

theorem streamFromScraping_gate_open (env : Env) (web : List WebResult)
    (h4 : urlsOf web ≠ [])
    (h5 : ¬ (¬ (scrapedOf env ≠ [] ∨
      (env.ragQuery.success = true ∧ env.ragQuery.results ≠ [])) ∧
      ¬ env.isClear = true)) :
    streamFromScraping env web =
      streamFromMedia env web (scrapedOf env)
        (sourcesOf env (scrapedOf env)) (preGateProgress web)
        (preGateCalls (scrapedOf env)) := by
  simp only [streamFromScraping, if_neg (by simpa using h4), if_neg h5,
    preGateProgress, preGateCalls]

theorem streamFromMedia_no_images (env : Env) (web : List WebResult)
    (scraped : List (String × String)) (sources : List String)
    (evts : List Event) (calls : Calls) (h : env.needsImages = false) :
    streamFromMedia env web scraped sources evts calls =
      streamTail env web scraped sources [] evts calls := by
  simp [streamFromMedia, h]

theorem streamFromMedia_images_ok (env : Env) (web : List WebResult)
    (scraped : List (String × String)) (sources : List String)
    (evts : List Event) (calls : Calls) (imgs : List ImgResult)
    (h : env.needsImages = true) (hi : env.imageSearch = .ok imgs) :
    streamFromMedia env web scraped sources evts calls =
      streamTail env web scraped sources (savedImagesOf env imgs)
        (evts ++ [.progress "image_search" "Searching for relevant images..."])
        { calls with imageSearch := true } := by
  simp [streamFromMedia, h, hi]

theorem streamFromMedia_images_raise (env : Env) (web : List WebResult)
    (scraped : List (String × String)) (sources : List String)
    (evts : List Event) (calls : Calls) (m : String)
    (h : env.needsImages = true) (hi : env.imageSearch = .error m) :
    streamFromMedia env web scraped sources evts calls =
      { events :=
          evts ++ [.progress "image_search" "Searching for relevant images..."],
        raised := some m, db := dbRunning env.createOk, updates := 0,
        calls := { calls with imageSearch := true }, contextUsed := none } := by
  simp [streamFromMedia, h, hi]

theorem streamTail_genErr (env : Env) (web : List WebResult)
    (scraped : List (String × String)) (sources : List String)
    (imgs : List SavedImage) (evts : List Event) (calls : Calls) (m : String)
    (hg : env.genErr = some m) :
    streamTail env web scraped sources imgs evts calls =
      { events := (evts ++ mediaProgress) ++ (streamChunks env.genChunks).2,
        raised := some m, db := dbRunning env.createOk, updates := 0,
        calls :=
          { calls with newsSearch := true, youtubeSearch := true, gen := true },
        contextUsed := some (assembledContext env.ragQuery scraped web) } := by
  simp [streamTail, hg, mediaProgress]

theorem streamTail_genOk (env : Env) (web : List WebResult)
    (scraped : List (String × String)) (sources : List String)
    (imgs : List SavedImage) (evts : List Event) (calls : Calls)
    (hg : env.genErr = none) :
    streamTail env web scraped sources imgs evts calls =
      { events := (evts ++ mediaProgress) ++ (streamChunks env.genChunks).2 ++
          [.progress "saving" "Saving research transcript...",
           .result (mkResultData (streamChunks env.genChunks).1 sources
             (newsResultsOf env) env.needsNews (savedVideosOf env).length)],
        raised := none,
        db := dbCompleted env.createOk (streamChunks env.genChunks).1
          (sources ++ imgs.map SavedImage.url ++ urlsOf web ++
            (youtubeVideosMeta env).filterMap
              (fun v => if v.url ≠ "" then some v.url else none) ++
            (newsResultsOf env).filterMap
              (fun n => if n.url ≠ "" then some n.url else none)),
        updates := updOne env.createOk,
        calls :=
          { calls with newsSearch := true, youtubeSearch := true, gen := true },
        contextUsed := some (assembledContext env.ragQuery scraped web) } := by
  simp [streamTail, hg, mediaProgress, List.append_assoc]

theorem mediaProgress_not_terminal : ∀ e ∈ mediaProgress, isTerminal e = false := by
  intro e he
  simp only [mediaProgress, List.mem_cons, List.mem_singleton] at he
  rcases he with h | h | h | h | h <;> first | (subst h; rfl) | exact absurd h (by simp)

theorem mediaProgress_no_chunks : ∀ e ∈ mediaProgress, e.isChunk = false := by
  intro e he
  simp only [mediaProgress, List.mem_cons, List.mem_singleton] at he
  rcases he with h | h | h | h | h <;> first | (subst h; rfl) | exact absurd h (by simp)

theorem mediaProgress_no_errors : ∀ e ∈ mediaProgress, e.isError = false := by
  intro e he
  simp only [mediaProgress, List.mem_cons, List.mem_singleton] at he
  rcases he with h | h | h | h | h <;> first | (subst h; rfl) | exact absurd h (by simp)

theorem preGateProgress_not_terminal (web : List WebResult) :
    ∀ e ∈ preGateProgress web, isTerminal e = false := by
  intro e he
  simp only [preGateProgress, List.mem_cons, List.mem_singleton] at he
  rcases he with h | h | h | h <;> first | (subst h; rfl) | exact absurd h (by simp)

theorem preGateProgress_no_chunks (web : List WebResult) :
    ∀ e ∈ preGateProgress web, e.isChunk = false := by
  intro e he
  simp only [preGateProgress, List.mem_cons, List.mem_singleton] at he
  rcases he with h | h | h | h <;> first | (subst h; rfl) | exact absurd h (by simp)

theorem preGateProgress_no_errors (web : List WebResult) :
    ∀ e ∈ preGateProgress web, e.isError = false := by
  intro e he
  simp only [preGateProgress, List.mem_cons, List.mem_singleton] at he
  rcases he with h | h | h | h <;> first | (subst h; rfl) | exact absurd h (by simp)

/-! ## Chunking lemmas (for the content indexer) -/

theorem str_mk_data (s : String) : String.mk s.data = s := by
  cases s
  rfl

theorem toBlocks_nil (n : Nat) : Sha256.toBlocks n ([] : List α) = [] := by
  have h : (n - 1) / n = 0 := by
    cases n with
    | zero => simp
    | succ m => exact Nat.div_eq_of_lt (by omega)
  simp [Sha256.toBlocks, h]

theorem ceil_div_step (len n : Nat) (hl : 0 < len) (hn : 0 < n) :
    (len + n - 1) / n = (len - n + n - 1) / n + 1 := by
  rcases Nat.lt_or_ge len n with h | h
  · have h1 : (len + n - 1) / n = 1 := by
      apply Nat.div_eq_of_lt_le <;> omega
    have h2 : len - n = 0 := by omega
    have h3 : (0 + n - 1) / n = 0 := Nat.div_eq_of_lt (by omega)
    rw [h1, h2, h3]
  · have he : len + n - 1 = (len - n + n - 1) + n := by omega
    rw [he, Nat.add_div_right _ hn]

theorem toBlocks_cons (n : Nat) (hn : 0 < n) (l : List α) (hl : l ≠ []) :
    Sha256.toBlocks n l = l.take n :: Sha256.toBlocks n (l.drop n) := by
  have hlen : 0 < l.length := List.length_pos.mpr hl
  unfold Sha256.toBlocks
  rw [List.length_drop, ceil_div_step l.length n hlen hn,
    List.range_succ_eq_map, List.map_cons, List.map_map]
  refine congrArg₂ _ (by simp) ?_
  apply List.map_congr_left
  intro k _
  simp only [Function.comp_apply, List.drop_drop]
  exact congrArg (fun m => (List.drop m l).take n)
    (by rw [Nat.succ_mul, Nat.mul_comm, Nat.add_comm])

theorem toBlocks_join_fuel (n : Nat) (hn : 0 < n) :
    ∀ (N : Nat) (l : List α), l.length ≤ N → (Sha256.toBlocks n l).flatten = l := by
  intro N
  induction N with
  | zero =>
    intro l hl
    have : l = [] := List.length_eq_zero.mp (Nat.le_zero.mp hl)
    subst this
    rw [toBlocks_nil]
    rfl
  | succ N ih =>
    intro l hl
    by_cases hl0 : l = []
    · subst hl0
      rw [toBlocks_nil]
      rfl
    · rw [toBlocks_cons n hn l hl0, List.flatten_cons,
        ih (l.drop n) (by simp only [List.length_drop]; omega),
        List.take_append_drop]

theorem toBlocks_join (n : Nat) (hn : 0 < n) (l : List α) :
    (Sha256.toBlocks n l).flatten = l :=
  toBlocks_join_fuel n hn l.length l le_rfl

theorem toBlocks_length_le (n : Nat) (l : List α) :
    ∀ b ∈ Sha256.toBlocks n l, b.length ≤ n := by
  intro b hb
  simp only [Sha256.toBlocks, List.mem_map, List.mem_range] at hb
  obtain ⟨k, _, rfl⟩ := hb
  simp [List.length_take]

theorem chunksOfText_eq (s : String) :
    chunksOfText s = (Sha256.toBlocks chunkSize s.data).map String.mk := by
  simp only [chunksOfText, Sha256.toBlocks, strTake, strDrop, strLen,
    List.map_map]
  rfl

theorem joinStrings_map_mk (bl : List (List Char)) :
    joinStrings (bl.map String.mk) = String.mk bl.flatten := by
  induction bl with
  | nil => rfl
  | cons b rest ih =>
    simp only [List.map_cons, joinStrings, List.foldr_cons, List.flatten_cons]
    rw [show List.foldr (· ++ ·) "" (rest.map String.mk) =
      joinStrings (rest.map String.mk) from rfl, ih]
    apply str_ext
    simp [str_append_data]

theorem chunkSize_pos : 0 < chunkSize := by
  rw [chunkSize]
  omega

theorem chunksOfText_join (s : String) : joinStrings (chunksOfText s) = s := by
  rw [chunksOfText_eq, joinStrings_map_mk, toBlocks_join chunkSize chunkSize_pos,
    str_mk_data]

theorem chunksOfText_len_le (s : String) :
    ∀ c ∈ chunksOfText s, strLen c ≤ chunkSize := by
  intro c hc
  rw [chunksOfText_eq] at hc
  obtain ⟨b, hb, rfl⟩ := List.mem_map.mp hc
  exact toBlocks_length_le chunkSize s.data b hb

/-! ## Metadata alignment lemmas (for the content indexer) -/

theorem scrapedDocuments_cons (p : String × String)
    (rest : List (String × String)) :
    scrapedDocuments (p :: rest) =
      chunksOfText p.2 ++ scrapedDocuments rest := rfl

theorem scrapedMetadatas_cons (now : String) (p : String × String)
    (rest : List (String × String)) :
    scrapedMetadatas now (p :: rest) =
      ((List.range (chunksOfText p.2).length).map fun i =>
        ({ url := p.1, chunk_index := i,
           total_chunks := (chunksOfText p.2).length,
           source_type := "web_scrape", saved_at := now } : ChunkMeta)) ++
      scrapedMetadatas now rest := rfl

theorem scraped_lengths_eq (now : String) (scraped : List (String × String)) :
    (scrapedDocuments scraped).length = (scrapedMetadatas now scraped).length := by
  induction scraped with
  | nil => rfl
  | cons p rest ih =>
    rw [scrapedDocuments_cons, scrapedMetadatas_cons]
    simp [ih]

theorem scraped_zip_mem (now : String) (scraped : List (String × String)) :
    ∀ pr ∈ (scrapedDocuments scraped).zip (scrapedMetadatas now scraped),
      ∃ p ∈ scraped, pr.2.url = p.1 ∧ pr.2.saved_at = now ∧
        pr.2.source_type = "web_scrape" ∧
        pr.2.total_chunks = (chunksOfText p.2).length ∧
        pr.2.chunk_index < pr.2.total_chunks ∧
        pr.1 = (chunksOfText p.2).getD pr.2.chunk_index "" := by
  induction scraped with
  | nil =>
    intro pr h
    simp [scrapedDocuments, scrapedMetadatas] at h
  | cons p rest ih =>
    intro pr h
    rw [scrapedDocuments_cons, scrapedMetadatas_cons,
      List.zip_append (by simp)] at h
    rcases List.mem_append.mp h with h | h
    · refine ⟨p, by simp, ?_⟩
      obtain ⟨i, hi, hpr⟩ := List.mem_iff_getElem.mp h
      have hlen : i < (chunksOfText p.2).length := by
        simpa using Nat.lt_of_lt_of_le hi (by simp [List.length_zip])
      rw [List.getElem_zip] at hpr
      subst hpr
      simp only [List.getElem_map, List.getElem_range]
      refine ⟨by trivial, by trivial, by trivial, by trivial,
        by simpa using hlen, ?_⟩
      rw [List.getD_eq_getElem _ _ (by simpa using hlen)]
    · obtain ⟨q, hq, hrest⟩ := ih pr h
      exact ⟨q, by simp [hq], hrest⟩

/-! ## Store lemmas (idempotent indexing) -/

theorem storeAdd_any_true (store : List (String × String)) (id : String)
    (h : id ∈ store.map Prod.fst) :
    store.any (fun p => p.1 = id) = true := by
  rw [List.any_eq_true]
  obtain ⟨p, hp, he⟩ := List.mem_map.mp h
  exact ⟨p, hp, by simp [he]⟩

theorem storeAdd_fst_of_mem (store : List (String × String)) (id doc : String)
    (h : id ∈ store.map Prod.fst) :
    (storeAdd store id doc).map Prod.fst = store.map Prod.fst := by
  unfold storeAdd
  rw [if_pos (storeAdd_any_true store id h), List.map_map]
  apply List.map_congr_left
  intro p _
  simp only [Function.comp_apply]
  by_cases hp : p.1 = id
  · simp [hp]
  · simp [hp]

theorem storeAdd_mem_fst (store : List (String × String)) (id doc a : String)
    (h : a ∈ store.map Prod.fst) :
    a ∈ (storeAdd store id doc).map Prod.fst := by
  unfold storeAdd
  by_cases hc : store.any (fun p => p.1 = id) = true
  · rw [if_pos hc]
    rw [show ((store.map fun p => if p.1 = id then (id, doc) else p).map Prod.fst)
        = store.map Prod.fst from by
      rw [List.map_map]
      apply List.map_congr_left
      intro p _
      simp only [Function.comp_apply]
      by_cases hp : p.1 = id
      · simp [hp]
      · simp [hp]]
    exact h
  · rw [if_neg hc]
    simp only [List.map_append, List.mem_append]
    exact Or.inl h

theorem storeAdd_self_mem (store : List (String × String)) (id doc : String) :
    id ∈ (storeAdd store id doc).map Prod.fst := by
  unfold storeAdd
  by_cases hc : store.any (fun p => p.1 = id) = true
  · rw [if_pos hc]
    obtain ⟨p, hp, he⟩ := List.any_eq_true.mp hc
    simp only [decide_eq_true_eq] at he
    refine List.mem_map.mpr ⟨(id, doc), ?_, rfl⟩
    refine List.mem_map.mpr ⟨p, hp, by simp [he]⟩
  · rw [if_neg hc]
    simp

theorem storeAdd_nodup (store : List (String × String)) (id doc : String)
    (h : (store.map Prod.fst).Nodup) :
    ((storeAdd store id doc).map Prod.fst).Nodup := by
  unfold storeAdd
  by_cases hc : store.any (fun p => p.1 = id) = true
  · rw [if_pos hc]
    rw [show ((store.map fun p => if p.1 = id then (id, doc) else p).map Prod.fst)
        = store.map Prod.fst from by
      rw [List.map_map]
      apply List.map_congr_left
      intro p _
      simp only [Function.comp_apply]
      by_cases hp : p.1 = id
      · simp [hp]
      · simp [hp]]
    exact h
  · rw [if_neg hc]
    have hid : id ∉ store.map Prod.fst := by
      intro hmem
      exact hc (storeAdd_any_true store id hmem)
    simp only [List.map_append, List.map_cons, List.map_nil]
    rw [List.nodup_append]
    exact ⟨h, List.nodup_singleton id, by simpa using hid⟩

theorem storeAddDocs_mono (docs : List String)
    (store : List (String × String)) (a : String)
    (h : a ∈ store.map Prod.fst) :
    a ∈ (storeAddDocs store docs).map Prod.fst := by
  induction docs generalizing store with
  | nil => exact h
  | cons d rest ih =>
    exact ih _ (storeAdd_mem_fst store (generate_document_id d) d a h)

theorem storeAddDocs_mem (docs : List String)
    (store : List (String × String)) (d : String) (h : d ∈ docs) :
    generate_document_id d ∈ (storeAddDocs store docs).map Prod.fst := by
  induction docs generalizing store with
  | nil => simp at h
  | cons d0 rest ih =>
    rcases List.mem_cons.mp h with h | h
    · subst h
      exact storeAddDocs_mono rest _ _
        (storeAdd_self_mem store (generate_document_id d) d)
    · exact ih _ h

theorem storeAddDocs_fst_stable (docs : List String)
    (store : List (String × String))
    (h : ∀ d ∈ docs, generate_document_id d ∈ store.map Prod.fst) :
    (storeAddDocs store docs).map Prod.fst = store.map Prod.fst := by
  induction docs generalizing store with
  | nil => rfl
  | cons d rest ih =>
    have hstep := storeAdd_fst_of_mem store (generate_document_id d) d
      (h d (by simp))
    rw [show storeAddDocs store (d :: rest)
        = storeAddDocs (storeAdd store (generate_document_id d) d) rest from rfl,
      ih _ (fun x hx => hstep ▸ h x (by simp [hx])), hstep]

theorem storeAddDocs_nodup (docs : List String)
    (store : List (String × String)) (h : (store.map Prod.fst).Nodup) :
    ((storeAddDocs store docs).map Prod.fst).Nodup := by
  induction docs generalizing store with
  | nil => exact h
  | cons d rest ih =>
    exact ih _ (storeAdd_nodup store (generate_document_id d) d h)

/-! ## News normalization lemmas -/

theorem normNewsAux_nil (seen : List String) (acc : List NormNews) :
    normNewsAux seen acc [] = acc.reverse := rfl

theorem normNewsAux_skip_url (seen : List String) (acc : List NormNews)
    (item : RawNews) (tail : List RawNews)
    (h : strStrip (item.url.getD "") = "" ∨
      ¬ strStartsWith (strLower (strStrip (item.url.getD ""))) "http") :
    normNewsAux seen acc (item :: tail) = normNewsAux seen acc tail := by
  simp only [normNewsAux]
  rw [if_pos h]

theorem normNewsAux_skip_domain (seen : List String) (acc : List NormNews)
    (item : RawNews) (tail : List RawNews)
    (h1 : ¬ (strStrip (item.url.getD "") = "" ∨
      ¬ strStartsWith (strLower (strStrip (item.url.getD ""))) "http"))
    (h2 : strLower (netloc (strStrip (item.url.getD ""))) = "" ∨
      strLower (netloc (strStrip (item.url.getD ""))) ∈ seen) :
    normNewsAux seen acc (item :: tail) = normNewsAux seen acc tail := by
  simp only [normNewsAux]
  rw [if_neg h1, if_pos h2]

theorem normNewsAux_take (seen : List String) (acc : List NormNews)
    (item : RawNews) (tail : List RawNews)
    (h1 : ¬ (strStrip (item.url.getD "") = "" ∨
      ¬ strStartsWith (strLower (strStrip (item.url.getD ""))) "http"))
    (h2 : ¬ (strLower (netloc (strStrip (item.url.getD ""))) = "" ∨
      strLower (netloc (strStrip (item.url.getD ""))) ∈ seen)) :
    normNewsAux seen acc (item :: tail) =
      if 5 ≤ (normItem item :: acc).length then (normItem item :: acc).reverse
      else normNewsAux (strLower (netloc (strStrip (item.url.getD ""))) :: seen)
        (normItem item :: acc) tail := by
  simp only [normNewsAux, normItem]
  rw [if_neg h1, if_neg h2]

theorem normNewsAux_length (rest : List RawNews) :
    ∀ (seen : List String) (acc : List NormNews), acc.length < 5 →
      (normNewsAux seen acc rest).length ≤ 5 := by
  induction rest with
  | nil =>
    intro seen acc h
    rw [normNewsAux_nil]
    simp only [List.length_reverse]
    omega
  | cons item tail ih =>
    intro seen acc h
    by_cases h1 : strStrip (item.url.getD "") = "" ∨
        ¬ strStartsWith (strLower (strStrip (item.url.getD ""))) "http"
    · rw [normNewsAux_skip_url seen acc item tail h1]
      exact ih seen acc h
    · by_cases h2 : strLower (netloc (strStrip (item.url.getD ""))) = "" ∨
          strLower (netloc (strStrip (item.url.getD ""))) ∈ seen
      · rw [normNewsAux_skip_domain seen acc item tail h1 h2]
        exact ih seen acc h
      · rw [normNewsAux_take seen acc item tail h1 h2]
        by_cases h3 : 5 ≤ (normItem item :: acc).length
        · rw [if_pos h3]
          simp only [List.length_reverse, List.length_cons]
          omega
        · rw [if_neg h3]
          refine ih _ _ ?_
          simp only [List.length_cons] at h3 ⊢
          omega

theorem normNewsAux_nodup (rest : List RawNews) :
    ∀ (seen : List String) (acc : List NormNews),
      (acc.map NormNews.domain).Nodup →
      (∀ d ∈ acc.map NormNews.domain, d ∈ seen) →
      ((normNewsAux seen acc rest).map NormNews.domain).Nodup := by
  induction rest with
  | nil =>
    intro seen acc h _
    rw [normNewsAux_nil, List.map_reverse]
    exact List.nodup_reverse.mpr h
  | cons item tail ih =>
    intro seen acc h hseen
    by_cases h1 : strStrip (item.url.getD "") = "" ∨
        ¬ strStartsWith (strLower (strStrip (item.url.getD ""))) "http"
    · rw [normNewsAux_skip_url seen acc item tail h1]
      exact ih seen acc h hseen
    · by_cases h2 : strLower (netloc (strStrip (item.url.getD ""))) = "" ∨
          strLower (netloc (strStrip (item.url.getD ""))) ∈ seen
      · rw [normNewsAux_skip_domain seen acc item tail h1 h2]
        exact ih seen acc h hseen
      · push_neg at h2
        have hdom : (normItem item).domain =
            strLower (netloc (strStrip (item.url.getD ""))) := rfl
        have hnotin : (normItem item).domain ∉ acc.map NormNews.domain := by
          rw [hdom]
          exact fun hmem => h2.2 (hseen _ hmem)
        have hnodup2 : ((normItem item :: acc).map NormNews.domain).Nodup := by
          simp only [List.map_cons]
          exact List.nodup_cons.mpr ⟨hnotin, h⟩
        rw [normNewsAux_take seen acc item tail h1 (by push_neg; exact h2)]
        by_cases h3 : 5 ≤ (normItem item :: acc).length
        · rw [if_pos h3, List.map_reverse]
          exact List.nodup_reverse.mpr hnodup2
        · rw [if_neg h3]
          refine ih _ _ hnodup2 ?_
          intro d hd
          simp only [List.map_cons, List.mem_cons] at hd
          rcases hd with hd | hd
          · rw [hd, hdom]
            simp
          · simp [hseen d hd]

theorem normNewsAux_sublist (rest : List RawNews) :
    ∀ (seen : List String) (acc : List NormNews),
      ∃ t, normNewsAux seen acc rest = acc.reverse ++ t ∧
        List.Sublist t (rest.map normItem) := by
  induction rest with
  | nil =>
    intro seen acc
    exact ⟨[], by simp [normNewsAux_nil], List.Sublist.refl _⟩
  | cons item tail ih =>
    intro seen acc
    by_cases h1 : strStrip (item.url.getD "") = "" ∨
        ¬ strStartsWith (strLower (strStrip (item.url.getD ""))) "http"
    · obtain ⟨t, ht, hs⟩ := ih seen acc
      exact ⟨t, by rw [normNewsAux_skip_url seen acc item tail h1, ht],
        hs.cons _⟩
    · by_cases h2 : strLower (netloc (strStrip (item.url.getD ""))) = "" ∨
          strLower (netloc (strStrip (item.url.getD ""))) ∈ seen
      · obtain ⟨t, ht, hs⟩ := ih seen acc
        exact ⟨t, by rw [normNewsAux_skip_domain seen acc item tail h1 h2, ht],
          hs.cons _⟩
      · rw [normNewsAux_take seen acc item tail h1 h2]
        by_cases h3 : 5 ≤ (normItem item :: acc).length
        · refine ⟨[normItem item], ?_, (List.nil_sublist _).cons₂ _⟩
          rw [if_pos h3, List.reverse_cons]
        · obtain ⟨t, ht, hs⟩ := ih
            (strLower (netloc (strStrip (item.url.getD ""))) :: seen)
            (normItem item :: acc)
          refine ⟨normItem item :: t, ?_, hs.cons₂ _⟩
          rw [if_neg h3, ht, List.reverse_cons, List.append_assoc]
          rfl

theorem normNewsAux_domain_eq (rest : List RawNews) :
    ∀ (seen : List String) (acc : List NormNews),
      (∀ x ∈ acc, x.domain = strLower (netloc x.url)) →
      ∀ x ∈ normNewsAux seen acc rest,
        x.domain = strLower (netloc x.url) := by
  induction rest with
  | nil =>
    intro seen acc h x hx
    rw [normNewsAux_nil, List.mem_reverse] at hx
    exact h x hx
  | cons item tail ih =>
    intro seen acc h x hx
    by_cases h1 : strStrip (item.url.getD "") = "" ∨
        ¬ strStartsWith (strLower (strStrip (item.url.getD ""))) "http"
    · rw [normNewsAux_skip_url seen acc item tail h1] at hx
      exact ih seen acc h x hx
    · by_cases h2 : strLower (netloc (strStrip (item.url.getD ""))) = "" ∨
          strLower (netloc (strStrip (item.url.getD ""))) ∈ seen
      · rw [normNewsAux_skip_domain seen acc item tail h1 h2] at hx
        exact ih seen acc h x hx
      · have hcons : ∀ y ∈ normItem item :: acc,
            y.domain = strLower (netloc y.url) := by
          intro y hy
          rcases List.mem_cons.mp hy with hy | hy
          · rw [hy]
            rfl
          · exact h y hy
        rw [normNewsAux_take seen acc item tail h1 h2] at hx
        by_cases h3 : 5 ≤ (normItem item :: acc).length
        · rw [if_pos h3, List.mem_reverse] at hx
          exact hcons x hx
        · rw [if_neg h3] at hx
          exact ih _ _ hcons x hx

/-! ## Pipeline stream-shape lemmas -/

theorem streamTail_noError (env : Env) (web : List WebResult)
    (scraped : List (String × String)) (sources : List String)
    (imgs : List SavedImage) (evts : List Event) (calls : Calls)
    (h : ∀ e ∈ evts, e.isError = false) :
    ∀ e ∈ (streamTail env web scraped sources imgs evts calls).events,
      e.isError = false := by
  intro e he
  cases hg : env.genErr with
  | some m =>
    rw [streamTail_genErr env web scraped sources imgs evts calls m hg] at he
    simp only [List.mem_append] at he
    rcases he with (he | he) | he
    · exact h e he
    · exact mediaProgress_no_errors e he
    · exact isChunk_not_error e (streamChunks_all_chunks env.genChunks e he)
  | none =>
    rw [streamTail_genOk env web scraped sources imgs evts calls hg] at he
    simp only [List.mem_append, List.mem_cons, List.not_mem_nil, or_false]
      at he
    rcases he with ((he | he) | he) | he | he
    · exact h e he
    · exact mediaProgress_no_errors e he
    · exact isChunk_not_error e (streamChunks_all_chunks env.genChunks e he)
    · subst he
      rfl
    · subst he
      rfl

theorem streamFromMedia_noError (env : Env) (web : List WebResult)
    (scraped : List (String × String)) (sources : List String)
    (evts : List Event) (calls : Calls)
    (h : ∀ e ∈ evts, e.isError = false) :
    ∀ e ∈ (streamFromMedia env web scraped sources evts calls).events,
      e.isError = false := by
  have himg : ∀ e ∈ evts ++
      [Event.progress "image_search" "Searching for relevant images..."],
      e.isError = false := by
    intro e he
    rcases List.mem_append.mp he with he | he
    · exact h e he
    · simp only [List.mem_singleton] at he
      subst he
      rfl
  intro e he
  by_cases hn : env.needsImages = true
  · cases hi : env.imageSearch with
    | error m =>
      rw [streamFromMedia_images_raise env web scraped sources evts calls m hn
        hi] at he
      exact himg e he
    | ok imgs =>
      rw [streamFromMedia_images_ok env web scraped sources evts calls imgs hn
        hi] at he
      exact streamTail_noError env web scraped sources _ _ _ himg e he
  · rw [streamFromMedia_no_images env web scraped sources evts calls
      (Bool.not_eq_true _ ▸ hn)] at he
    exact streamTail_noError env web scraped sources _ _ _ h e he

theorem streamTail_contextUsed (env : Env) (web : List WebResult)
    (scraped : List (String × String)) (sources : List String)
    (imgs : List SavedImage) (evts : List Event) (calls : Calls) :
    (streamTail env web scraped sources imgs evts calls).contextUsed =
      some (assembledContext env.ragQuery scraped web) := by
  cases hg : env.genErr with
  | some m =>
    rw [streamTail_genErr env web scraped sources imgs evts calls m hg]
  | none =>
    rw [streamTail_genOk env web scraped sources imgs evts calls hg]

theorem streamFromMedia_contextUsed (env : Env) (web : List WebResult)
    (scraped : List (String × String)) (sources : List String)
    (evts : List Event) (calls : Calls)
    (h : env.needsImages = false ∨ ∃ imgs, env.imageSearch = .ok imgs) :
    (streamFromMedia env web scraped sources evts calls).contextUsed =
      some (assembledContext env.ragQuery scraped web) := by
  rcases h with h | ⟨imgs, hi⟩
  · rw [streamFromMedia_no_images env web scraped sources evts calls h]
    exact streamTail_contextUsed env web scraped sources [] evts calls
  · by_cases hn : env.needsImages = true
    · rw [streamFromMedia_images_ok env web scraped sources evts calls imgs hn
        hi]
      exact streamTail_contextUsed env web scraped sources _ _ _
    · rw [streamFromMedia_no_images env web scraped sources evts calls
        (Bool.not_eq_true _ ▸ hn)]
      exact streamTail_contextUsed env web scraped sources [] evts calls

theorem streamTail_stream_concat (env : Env) (web : List WebResult)
    (scraped : List (String × String)) (sources : List String)
    (imgs : List SavedImage) (evts : List Event) (calls : Calls)
    (hev : ∀ e ∈ evts, isTerminal e = false)
    (hch : ∀ e ∈ evts, e.isChunk = false) (d : ResultData)
    (h : (websocket_research
        (streamTail env web scraped sources imgs evts calls)).getLast? =
      some (.result d)) :
    chunkConcat (websocket_research
      (streamTail env web scraped sources imgs evts calls)) = d.answer := by
  cases hg : env.genErr with
  | some m =>
    exfalso
    rw [streamTail_genErr env web scraped sources imgs evts calls m hg] at h
    simp only [websocket_research, List.getLast?_concat, Option.some_inj] at h
    exact Event.noConfusion h
  | none =>
    rw [streamTail_genOk env web scraped sources imgs evts calls hg] at h ⊢
    have hpre : ∀ e ∈ ((evts ++ mediaProgress) ++
        (streamChunks env.genChunks).2) ++
        [Event.progress "saving" "Saving research transcript..."],
        isTerminal e = false := by
      intro e he
      simp only [List.mem_append, List.mem_singleton] at he
      rcases he with ((he | he) | he) | he
      · exact hev e he
      · exact mediaProgress_not_terminal e he
      · exact isChunk_not_terminal e (streamChunks_all_chunks env.genChunks e he)
      · subst he
        rfl
    have hassoc : ((evts ++ mediaProgress) ++ (streamChunks env.genChunks).2) ++
        [Event.progress "saving" "Saving research transcript...",
         Event.result (mkResultData (streamChunks env.genChunks).1 sources
           (newsResultsOf env) env.needsNews (savedVideosOf env).length)] =
        (((evts ++ mediaProgress) ++ (streamChunks env.genChunks).2) ++
          [Event.progress "saving" "Saving research transcript..."]) ++
        [Event.result (mkResultData (streamChunks env.genChunks).1 sources
           (newsResultsOf env) env.needsNews (savedVideosOf env).length)] := by
      simp
    simp only [websocket_research] at h ⊢
    rw [hassoc, deliverLoop_append _ _ hpre] at h ⊢
    simp only [deliverLoop, isTerminal, if_pos] at h ⊢
    rw [List.getLast?_concat] at h
    have hd : d = mkResultData (streamChunks env.genChunks).1 sources
        (newsResultsOf env) env.needsNews (savedVideosOf env).length := by
      have := Option.some_inj.mp h
      exact (Event.result.inj this.symm)
    subst hd
    rw [chunkConcat_append, chunkConcat_append, chunkConcat_append]
    rw [chunkConcat_of_no_chunks (evts ++ mediaProgress) (by
        intro e he
        rcases List.mem_append.mp he with he | he
        · exact hch e he
        · exact mediaProgress_no_chunks e he),
      streamChunks_concat,
      chunkConcat_of_no_chunks
        [Event.progress "saving" "Saving research transcript..."] (by
        intro e he
        simp only [List.mem_singleton] at he
        subst he
        rfl),
      chunkConcat_of_no_chunks
        [Event.result (mkResultData (streamChunks env.genChunks).1 sources
           (newsResultsOf env) env.needsNews (savedVideosOf env).length)] (by
        intro e he
        simp only [List.mem_singleton] at he
        subst he
        rfl)]
    rw [str_empty_append, str_append_empty, str_append_empty]
    rfl

/-! ## Claims -/

/-- C4: for every query the Safety Filter classifies as unsafe (and a
successfully created session), the pipeline emits exactly one event, of
type `error` — so zero progress and zero answer_chunk events — terminates
before query analysis and retrieval, and the session is updated to
status failed with `metadata.error = "sexual_content_detected"` and no
answer persisted. -/
theorem C4_safety_rejection (env : Env) (h1 : env.sexualDetected = true)
    (h2 : env.createOk = true) :
    websocket_research (research_agent_stream env) = [.error refusalMsg] ∧
    (research_agent_stream env).events = [.error refusalMsg] ∧
    (research_agent_stream env).db =
      some { status := .failed, answer := none, resources := [],
             metadataError := some "sexual_content_detected" } ∧
    (research_agent_stream env).calls.safety = true ∧
    (research_agent_stream env).calls.analyze = false ∧
    (research_agent_stream env).calls.webSearch = false ∧
    (research_agent_stream env).calls.scrape = false ∧
    (research_agent_stream env).calls.ragQuery = false ∧
    (research_agent_stream env).calls.gen = false := by
  have he : research_agent_stream env =
      { events := [.error refusalMsg], raised := none,
        db := dbFail env.createOk "sexual_content_detected" [],
        updates := updOne env.createOk, calls := { safety := true },
        contextUsed := none } := by
    simp [research_agent_stream, h1]
  rw [he]
  refine ⟨?_, rfl, ?_, rfl, rfl, rfl, rfl, rfl, rfl⟩
  · simp [websocket_research, deliverLoop, isTerminal]
  · simp [dbFail, h2]

/-- Witness for C4 at a concrete unsafe environment. -/
theorem C4_safety_rejection_witness :
    websocket_research
        (research_agent_stream { okEnv with sexualDetected := true }) =
      [.error refusalMsg] ∧
    (research_agent_stream { okEnv with sexualDetected := true }).db =
      some { status := .failed, answer := none, resources := [],
             metadataError := some "sexual_content_detected" } :=
  ⟨(C4_safety_rejection { okEnv with sexualDetected := true } rfl rfl).1,
   (C4_safety_rejection { okEnv with sexualDetected := true } rfl rfl).2.2.1⟩

/-- C3 counterexample: when `web_search` raises (instead of returning an
empty list), the caller receives a single `"Research failed: ..."` error
event whose message does not contain "rephrasing", and the session row
stays `running` with no `metadata.error` — the claim's "or raises" branch
is false on the code. -/
theorem C3_counterexample :
    websocket_research
        (research_agent_stream { okEnv with webSearch := .error "boom" }) =
      [.error "Research failed: boom"] ∧
    strContains "Research failed: boom" "rephrasing" = false ∧
    (research_agent_stream { okEnv with webSearch := .error "boom" }).db =
      some { status := .running, answer := none, resources := [],
             metadataError := none } ∧
    (research_agent_stream { okEnv with webSearch := .error "boom" }).updates
      = 0 := by
  refine ⟨?_, by decide, ?_, ?_⟩ <;> decide

/-- C3 as amended: for every run where web search RETURNS AN EMPTY LIST,
the caller receives exactly one error event, its message contains
"rephrasing", the session is updated to failed with
`metadata.error = "no_web_results"`, and no scraping, indexing, media
search, or synthesis runs afterwards. -/
theorem C3_no_web_results (env : Env) (h1 : env.sexualDetected = false)
    (h2 : env.webSearch = .ok []) (h3 : env.createOk = true) :
    websocket_research (research_agent_stream env) = [.error noResultsMsg] ∧
    strContains noResultsMsg "rephrasing" = true ∧
    (research_agent_stream env).db =
      some { status := .failed, answer := none, resources := [],
             metadataError := some "no_web_results" } ∧
    (research_agent_stream env).calls.scrape = false ∧
    (research_agent_stream env).calls.ragSave = false ∧
    (research_agent_stream env).calls.ragQuery = false ∧
    (research_agent_stream env).calls.imageSearch = false ∧
    (research_agent_stream env).calls.newsSearch = false ∧
    (research_agent_stream env).calls.youtubeSearch = false ∧
    (research_agent_stream env).calls.gen = false := by
  have he : research_agent_stream env =
      { events := [.error noResultsMsg], raised := none,
        db := dbFail env.createOk "no_web_results" [],
        updates := updOne env.createOk,
        calls := { safety := true, analyze := true, webSearch := true },
        contextUsed := none } := by
    simp [research_agent_stream, h1, h2]
  rw [he]
  refine ⟨?_, by decide, ?_, rfl, rfl, rfl, rfl, rfl, rfl, rfl⟩
  · simp [websocket_research, deliverLoop, isTerminal]
  · simp [dbFail, h3]

/-- Witness for C3 (amended) at a concrete empty-result environment. -/
theorem C3_no_web_results_witness :
    websocket_research
        (research_agent_stream { okEnv with webSearch := .ok [] }) =
      [.error noResultsMsg] ∧
    (research_agent_stream { okEnv with webSearch := .ok [] }).db =
      some { status := .failed, answer := none, resources := [],
             metadataError := some "no_web_results" } :=
  ⟨(C3_no_web_results { okEnv with webSearch := .ok [] } rfl rfl rfl).1,
   (C3_no_web_results { okEnv with webSearch := .ok [] } rfl rfl rfl).2.2.1⟩

/-- C10: if web search returns a non-empty list in which no result has a
non-empty `href`, the pipeline skips scraping, indexing, the ambiguity
gate, all media searches and generation, never calls the generation
provider, never updates the session (it stays `running`), and still
yields a terminal `result` event whose answer is the empty string. -/
theorem C10_no_href_skips_pipeline (env : Env) (web : List WebResult)
    (h1 : env.sexualDetected = false) (h2 : env.webSearch = .ok web)
    (h3 : web ≠ []) (h4 : ∀ r ∈ web, r.href = "") :
    websocket_research (research_agent_stream env) =
      [.progress "scraping" "Scraping 0 URLs...",
       .result (mkResultData "" [] [] env.needsNews 0)] ∧
    (research_agent_stream env).raised = none ∧
    (research_agent_stream env).updates = 0 ∧
    (research_agent_stream env).db = dbRunning env.createOk ∧
    (research_agent_stream env).calls.scrape = false ∧
    (research_agent_stream env).calls.ragSave = false ∧
    (research_agent_stream env).calls.ragQuery = false ∧
    (research_agent_stream env).calls.imageSearch = false ∧
    (research_agent_stream env).calls.newsSearch = false ∧
    (research_agent_stream env).calls.youtubeSearch = false ∧
    (research_agent_stream env).calls.gen = false := by
  have hu : urlsOf web = [] := by
    rw [urlsOf, List.filterMap_eq_nil_iff]
    intro r hr
    simp [h4 r hr]
  rw [research_agent_stream_eq_scraping env web h1 h2 h3]
  have he : streamFromScraping env web =
      { events := [.progress "scraping" "Scraping 0 URLs...",
          .result (mkResultData "" [] [] env.needsNews 0)],
        raised := none, db := dbRunning env.createOk, updates := 0,
        calls := { safety := true, analyze := true, webSearch := true },
        contextUsed := none } := by
    simp only [streamFromScraping, hu]
    rfl
  rw [he]
  refine ⟨?_, rfl, rfl, rfl, rfl, rfl, rfl, rfl, rfl, rfl, rfl⟩
  simp [websocket_research, deliverLoop, isTerminal]

/-- Witness for C10 at a concrete href-free web result list. -/
theorem C10_no_href_skips_pipeline_witness :
    websocket_research (research_agent_stream
        { okEnv with webSearch := .ok [{ href := "", title := "t", body := "b" }] }) =
      [.progress "scraping" "Scraping 0 URLs...",
       .result (mkResultData "" [] [] false 0)] :=
  (C10_no_href_skips_pipeline
    { okEnv with webSearch := .ok [{ href := "", title := "t", body := "b" }] }
    [{ href := "", title := "t", body := "b" }] rfl rfl (by decide)
    (by decide)).1

/-- C6: chunk ids are a pure function of chunk content — the literal
`"doc_"` followed by the first 16 hex digits of the SHA-256 of the chunk
text — so indexing the same source text twice leaves the store's id list
unchanged, and indexing never creates duplicate ids in an id-keyed
(upsert) store. -/
theorem C6_chunk_id_idempotence :
    (∀ content : String,
      generate_document_id content = "doc_" ++ strTake (sha256Hex content) 16) ∧
    (∀ store scraped : List (String × String),
      (indexScraped (indexScraped store scraped) scraped).map Prod.fst =
        (indexScraped store scraped).map Prod.fst) ∧
    (∀ store scraped : List (String × String),
      (store.map Prod.fst).Nodup →
        ((indexScraped store scraped).map Prod.fst).Nodup) := by
  refine ⟨fun _ => rfl, ?_, ?_⟩
  · intro store scraped
    exact storeAddDocs_fst_stable _ _ fun d hd => storeAddDocs_mem _ _ d hd
  · intro store scraped h
    exact storeAddDocs_nodup _ _ h

/-- Witness for C6: re-indexing a concrete page leaves the concrete
store's ids unchanged and duplicate-free. -/
theorem C6_chunk_id_idempotence_witness :
    ((([] : List (String × String)).map Prod.fst).Nodup) ∧
    ((indexScraped (indexScraped [] [("http://a.com", "ab")])
        [("http://a.com", "ab")]).map Prod.fst =
      (indexScraped [] [("http://a.com", "ab")]).map Prod.fst) ∧
    ((indexScraped [] [("http://a.com", "ab")]).map Prod.fst).Nodup :=
  ⟨by decide, C6_chunk_id_idempotence.2.1 [] [("http://a.com", "ab")],
   C6_chunk_id_idempotence.2.2 [] [("http://a.com", "ab")] (by decide)⟩

/-- C7: `save_scraped_content` splits each text into consecutive chunks
of at most 1000 characters whose in-order concatenation is the original
text; each indexed chunk is paired with metadata recording its url, its
0-based chunk index (below the per-url total), the per-url total chunk
count, source_type `"web_scrape"` and the save timestamp; and on success
the returned count is the total number of chunks across all urls. -/
theorem C7_indexer_chunking (scraped : List (String × String)) (addOk : Bool)
    (now : String) :
    (∀ p ∈ scraped, joinStrings (chunksOfText p.2) = p.2 ∧
      ∀ c ∈ chunksOfText p.2, strLen c ≤ 1000) ∧
    (∀ pr ∈ (scrapedDocuments scraped).zip (scrapedMetadatas now scraped),
      ∃ p ∈ scraped, pr.2.url = p.1 ∧ pr.2.saved_at = now ∧
        pr.2.source_type = "web_scrape" ∧
        pr.2.total_chunks = (chunksOfText p.2).length ∧
        pr.2.chunk_index < pr.2.total_chunks ∧
        pr.1 = (chunksOfText p.2).getD pr.2.chunk_index "") ∧
    (scrapedDocuments scraped).length = (scrapedMetadatas now scraped).length ∧
    ((save_scraped_content addOk scraped).success = true →
      (save_scraped_content addOk scraped).count =
        (scrapedDocuments scraped).length) := by
  refine ⟨?_, scraped_zip_mem now scraped, scraped_lengths_eq now scraped, ?_⟩
  · intro p _
    exact ⟨chunksOfText_join p.2, chunksOfText_len_le p.2⟩
  · intro h
    by_cases hs : scraped.isEmpty
    · simp [save_scraped_content, hs] at h
    · by_cases hd : (scrapedDocuments scraped).isEmpty
      · simp [save_scraped_content, create_documents, hs, hd] at h
      · by_cases ha : addOk
        · simp [save_scraped_content, create_documents, hs, hd, ha]
        · simp [save_scraped_content, create_documents, hs, hd, ha] at h

/-- Witness for C7 at a concrete one-page mapping. -/
theorem C7_indexer_chunking_witness :
    (save_scraped_content true [("u", "hello")]).success = true ∧
    (save_scraped_content true [("u", "hello")]).count =
      (scrapedDocuments [("u", "hello")]).length :=
  ⟨by decide,
   (C7_indexer_chunking [("u", "hello")] true "T").2.2.2 (by decide)⟩

/-- C8 counterexample: two raw news items with the same URL domain are
BOTH kept by the pipeline (which maps raw news results field-by-field
and never calls `_normalize_news_results`), so the news items the
pipeline uses are not deduplicated by domain. -/
theorem C8_counterexample :
    (research_agent_stream newsDupEnv).events.getLast?
      = some (.result (mkResultData "Hello world" ["http://a.com"]
          [newsItemA, newsItemB] false 0)) ∧
    netloc newsItemA.url = netloc newsItemB.url ∧
    newsItemA.url ≠ newsItemB.url := by
  refine ⟨by decide, by decide, by decide⟩

/-- C8 as amended: the helper `_normalize_news_results` does dedupe by
URL domain — first-seen wins, input order preserved (its output is a
sublist of the item-wise normalization), at most 5 items, each tagged
with its lowercased netloc — but the pipeline's news items are the raw
news results mapped one-to-one, without that deduplication. -/
theorem C8_news_normalization (raw : List RawNews) (env : Env)
    (l : List RawNews) (h : env.rawNews = .ok l) :
    (normalize_news_results raw).length ≤ 5 ∧
    ((normalize_news_results raw).map NormNews.domain).Nodup ∧
    List.Sublist (normalize_news_results raw) (raw.map normItem) ∧
    (∀ x ∈ normalize_news_results raw,
      x.domain = strLower (netloc x.url)) ∧
    newsResultsOf env = l.map mapNewsItem := by
  refine ⟨?_, ?_, ?_, ?_, ?_⟩
  · exact normNewsAux_length raw [] [] (by simp)
  · exact normNewsAux_nodup raw [] [] (by simp) (by simp)
  · obtain ⟨t, ht, hs⟩ := normNewsAux_sublist raw [] []
    rw [normalize_news_results, ht]
    simpa using hs
  · exact normNewsAux_domain_eq raw [] [] (by simp)
  · simp [newsResultsOf, h]

/-- Witness for C8 (amended) at concrete inputs. -/
theorem C8_news_normalization_witness :
    (normalize_news_results [rawNewsA, rawNewsB]).length ≤ 5 ∧
    newsResultsOf newsDupEnv = [rawNewsA, rawNewsB].map mapNewsItem :=
  ⟨(C8_news_normalization [rawNewsA, rawNewsB] newsDupEnv
      [rawNewsA, rawNewsB] rfl).1,
   (C8_news_normalization [rawNewsA, rawNewsB] newsDupEnv
      [rawNewsA, rawNewsB] rfl).2.2.2.2⟩

/-- C9 counterexample: when the generation provider errors mid-stream,
the caller does get a terminal `"Research failed: ..."` error event, but
the session is NOT finalized as failed — it stays `running` with no
error recorded and zero status updates. -/
theorem C9_counterexample :
    (websocket_research
        (research_agent_stream { okEnv with genErr := some "boom" })).getLast?
      = some (.error "Research failed: boom") ∧
    (research_agent_stream { okEnv with genErr := some "boom" }).db =
      some { status := .running, answer := none, resources := [],
             metadataError := none } ∧
    (research_agent_stream { okEnv with genErr := some "boom" }).updates
      = 0 := by
  refine ⟨by decide, by decide, by decide⟩

/-- C9 as amended: if the generation provider errors mid-stream during
answer synthesis, the exception escapes the generator and the gateway
delivers a terminal `"Research failed: <message>"` error event, but the
session is NOT finalized: it remains in status `running` and no
`update_research_status` call happens on this path. -/
theorem C9_synthesis_failure (env : Env) (web : List WebResult) (m : String)
    (h1 : env.sexualDetected = false) (h2 : env.webSearch = .ok web)
    (h3 : web ≠ []) (h4 : urlsOf web ≠ [])
    (h5 : ¬ (¬ (scrapedOf env ≠ [] ∨
      (env.ragQuery.success = true ∧ env.ragQuery.results ≠ [])) ∧
      ¬ env.isClear = true))
    (h6 : env.needsImages = false ∨ ∃ imgs, env.imageSearch = .ok imgs)
    (h7 : env.genErr = some m) :
    (research_agent_stream env).raised = some m ∧
    (websocket_research (research_agent_stream env)).getLast? =
      some (.error ("Research failed: " ++ m)) ∧
    (research_agent_stream env).db = dbRunning env.createOk ∧
    (research_agent_stream env).updates = 0 := by
  rw [research_agent_stream_eq_scraping env web h1 h2 h3,
    streamFromScraping_gate_open env web h4 h5]
  rcases h6 with h6 | ⟨imgs, hi⟩
  · rw [streamFromMedia_no_images _ _ _ _ _ _ h6,
      streamTail_genErr _ _ _ _ _ _ _ m h7]
    exact ⟨rfl, by simp [websocket_research, List.getLast?_concat], rfl, rfl⟩
  · by_cases hn : env.needsImages = true
    · rw [streamFromMedia_images_ok _ _ _ _ _ _ imgs hn hi,
        streamTail_genErr _ _ _ _ _ _ _ m h7]
      exact ⟨rfl, by simp [websocket_research, List.getLast?_concat], rfl, rfl⟩
    · rw [streamFromMedia_no_images _ _ _ _ _ _ (Bool.not_eq_true _ ▸ hn),
        streamTail_genErr _ _ _ _ _ _ _ m h7]
      exact ⟨rfl, by simp [websocket_research, List.getLast?_concat], rfl, rfl⟩

/-- Witness for C9 (amended) at a concrete mid-stream failure. -/
theorem C9_synthesis_failure_witness :
    (research_agent_stream { okEnv with genErr := some "boom" }).raised
      = some "boom" ∧
    (websocket_research
        (research_agent_stream { okEnv with genErr := some "boom" })).getLast?
      = some (.error ("Research failed: " ++ "boom")) :=
  ⟨(C9_synthesis_failure { okEnv with genErr := some "boom" }
      [{ href := "http://a.com", title := "t", body := "b" }] "boom"
      rfl rfl (by decide) (by decide) (by decide) (Or.inl rfl) rfl).1,
   (C9_synthesis_failure { okEnv with genErr := some "boom" }
      [{ href := "http://a.com", title := "t", body := "b" }] "boom"
      rfl rfl (by decide) (by decide) (by decide) (Or.inl rfl) rfl).2.1⟩

/-- C5: for every run whose delivered stream ends with a terminal
`result` event, the concatenation, in delivery order, of the `chunk`
fields of all delivered `answer_chunk` events equals the `answer` field
of that `result` event. -/
theorem C5_stream_concat (env : Env) (d : ResultData)
    (h : (websocket_research (research_agent_stream env)).getLast? =
      some (.result d)) :
    chunkConcat (websocket_research (research_agent_stream env)) =
      d.answer := by
  by_cases hs : env.sexualDetected = true
  · exfalso
    have he : research_agent_stream env =
        { events := [.error refusalMsg], raised := none,
          db := dbFail env.createOk "sexual_content_detected" [],
          updates := updOne env.createOk, calls := { safety := true },
          contextUsed := none } := by
      simp [research_agent_stream, hs]
    rw [he] at h
    simp [websocket_research, deliverLoop, isTerminal] at h
  · have hs' : env.sexualDetected = false := by simpa using hs
    rcases hw : env.webSearch with m | web
    · exfalso
      have he : research_agent_stream env =
          { events := [], raised := some m, db := dbRunning env.createOk,
            updates := 0,
            calls := { safety := true, analyze := true, webSearch := true },
            contextUsed := none } := by
        simp [research_agent_stream, hs', hw]
      rw [he] at h
      simp [websocket_research, deliverLoop] at h
    · by_cases hweb : web = []
      · exfalso
        subst hweb
        have he : research_agent_stream env =
            { events := [.error noResultsMsg], raised := none,
              db := dbFail env.createOk "no_web_results" [],
              updates := updOne env.createOk,
              calls := { safety := true, analyze := true, webSearch := true },
              contextUsed := none } := by
          simp [research_agent_stream, hs', hw]
        rw [he] at h
        simp [websocket_research, deliverLoop, isTerminal] at h
      · rw [research_agent_stream_eq_scraping env web hs' hw hweb] at h ⊢
        by_cases hu : urlsOf web = []
        · have he : streamFromScraping env web =
              { events := [.progress "scraping" "Scraping 0 URLs...",
                  .result (mkResultData "" [] [] env.needsNews 0)],
                raised := none, db := dbRunning env.createOk, updates := 0,
                calls := { safety := true, analyze := true, webSearch := true },
                contextUsed := none } := by
            simp only [streamFromScraping, hu]
            rfl
          rw [he] at h ⊢
          simp only [websocket_research, deliverLoop, isTerminal,
            Bool.false_eq_true, if_false, if_true, Option.some_inj] at h ⊢
          have hd : d = mkResultData "" [] [] env.needsNews 0 := by
            have h2 := List.getLast?_concat
              (l := [Event.progress "scraping" "Scraping 0 URLs..."])
              (a := Event.result (mkResultData "" [] [] env.needsNews 0))
            simp only [List.singleton_append] at h2
            rw [h2, Option.some_inj] at h
            exact (Event.result.inj h.symm)
          subst hd
          rfl
        · by_cases hg : (¬ (scrapedOf env ≠ [] ∨
              (env.ragQuery.success = true ∧ env.ragQuery.results ≠ [])) ∧
              ¬ env.isClear = true)
          · exfalso
            rw [streamFromScraping_gate_closed env web hu hg] at h
            simp only [websocket_research] at h
            rw [deliverLoop_append _ _ (preGateProgress_not_terminal web)] at h
            simp only [deliverLoop, isTerminal, if_true] at h
            rw [List.getLast?_concat] at h
            exact Event.noConfusion (Option.some_inj.mp h)
          · rw [streamFromScraping_gate_open env web hu hg] at h ⊢
            by_cases hn : env.needsImages = true
            · rcases hi : env.imageSearch with m | imgs
              · exfalso
                rw [streamFromMedia_images_raise _ _ _ _ _ _ m hn hi] at h
                simp only [websocket_research] at h
                rw [List.getLast?_concat] at h
                exact Event.noConfusion (Option.some_inj.mp h)
              · rw [streamFromMedia_images_ok _ _ _ _ _ _ imgs hn hi] at h ⊢
                refine streamTail_stream_concat _ _ _ _ _ _ _ ?_ ?_ d h
                · intro e he
                  rcases List.mem_append.mp he with he | he
                  · exact preGateProgress_not_terminal web e he
                  · simp only [List.mem_singleton] at he
                    subst he
                    rfl
                · intro e he
                  rcases List.mem_append.mp he with he | he
                  · exact preGateProgress_no_chunks web e he
                  · simp only [List.mem_singleton] at he
                    subst he
                    rfl
            · rw [streamFromMedia_no_images _ _ _ _ _ _
                (Bool.not_eq_true _ ▸ hn)] at h ⊢
              exact streamTail_stream_concat _ _ _ _ _ _ _
                (preGateProgress_not_terminal web)
                (preGateProgress_no_chunks web) d h

/-- Witness for C5 at a concrete successful run. -/
theorem C5_stream_concat_witness :
    chunkConcat (websocket_research (research_agent_stream okEnv)) =
      "Hello world" :=
  C5_stream_concat okEnv
    (mkResultData "Hello world" ["http://a.com"] [] false 0) (by decide)

/-- C2 counterexample.  First part: a run whose web result has a title
and body — so the raw-web-snippet tier WOULD produce content — still
fails with `unclear_query` when scraping and the retrieval store come up
empty and the query is unclear; the gate never consults the third tier.
Second part: a run with zero content from all three tiers but a clear
query reaches the step-4 placeholder — so the placeholder is not
"reachable only when some content exists". -/
theorem C2_counterexample :
    (websocket_research (research_agent_stream unclearEnv)
      = [.progress "scraping" "Scraping 1 URLs...",
         .progress "saving" "Saving scraped content to knowledge base...",
         .progress "rag_query"
           "Querying knowledge base for relevant information...",
         .error unclearMsg] ∧
     (research_agent_stream unclearEnv).db
       = some { status := .failed, answer := none,
                resources := ["http://a.com"],
                metadataError := some "unclear_query" } ∧
     contextWebParts [{ href := "http://a.com", title := "t", body := "b" }]
       = ["Source: t\nb"]) ∧
    ((research_agent_stream noContentEnv).contextUsed
       = some placeholderContext ∧
     contextParts ⟨true, []⟩ []
        [{ href := "http://a.com", title := "", body := "" }] = []) := by
  refine ⟨⟨by decide, by decide, by decide⟩, by decide, by decide⟩

/-- C2 as amended: with at least one web result carrying an `href`, the
pipeline fails with `unclear_query` if and only if scraping produced no
content AND the retrieval store produced no hits AND the analyzer marked
the query unclear — the raw web-search snippet tier is not consulted by
the gate; and the step-4 placeholder is used exactly when step 10
assembles zero context parts, regardless of whether any content exists. -/
theorem C2_ambiguity_gate (env : Env) (web : List WebResult)
    (h1 : env.sexualDetected = false) (h2 : env.webSearch = .ok web)
    (h3 : web ≠ []) (h4 : urlsOf web ≠ []) :
    (Event.error unclearMsg ∈ (research_agent_stream env).events ↔
      (scrapedOf env = [] ∧
       ¬ (env.ragQuery.success = true ∧ env.ragQuery.results ≠ []) ∧
       env.isClear = false)) ∧
    (∀ (rag : RagQueryRes) (scraped : List (String × String))
        (w : List WebResult), contextParts rag scraped w = [] →
      assembledContext rag scraped w = placeholderContext) := by
  constructor
  · rw [research_agent_stream_eq_scraping env web h1 h2 h3]
    by_cases hg : (¬ (scrapedOf env ≠ [] ∨
        (env.ragQuery.success = true ∧ env.ragQuery.results ≠ [])) ∧
        ¬ env.isClear = true)
    · rw [streamFromScraping_gate_closed env web h4 hg]
      constructor
      · intro _
        obtain ⟨hg1, hg2⟩ := hg
        push_neg at hg1
        refine ⟨hg1.1, fun hc => hc.2 (hg1.2 hc.1), ?_⟩
        revert hg2
        cases env.isClear <;> simp
      · intro _
        simp
    · rw [streamFromScraping_gate_open env web h4 hg]
      constructor
      · intro hmem
        exfalso
        have herr := streamFromMedia_noError env web (scrapedOf env)
          (sourcesOf env (scrapedOf env)) (preGateProgress web)
          (preGateCalls (scrapedOf env)) (preGateProgress_no_errors web)
          _ hmem
        exact absurd herr (by simp [Event.isError])
      · intro hrhs
        exfalso
        apply hg
        refine ⟨?_, ?_⟩
        · intro contra
          rcases contra with contra | contra
          · exact contra hrhs.1
          · exact hrhs.2.1 contra
        · rw [hrhs.2.2]
          simp
  · intro rag scraped w hparts
    simp [assembledContext, hparts, placeholderContext]

/-- Witness for C2 (amended): the iff instantiated at a concrete
unclear-query run, in both directions, plus the placeholder equation at
a concrete empty-context input. -/
theorem C2_ambiguity_gate_witness :
    Event.error unclearMsg ∈ (research_agent_stream unclearEnv).events ∧
    assembledContext ⟨true, []⟩ []
        [{ href := "http://a.com", title := "", body := "" }] =
      placeholderContext :=
  ⟨(C2_ambiguity_gate unclearEnv
      [{ href := "http://a.com", title := "t", body := "b" }]
      rfl rfl (by decide) (by decide)).1.mpr (by decide),
   (C2_ambiguity_gate unclearEnv
      [{ href := "http://a.com", title := "t", body := "b" }]
      rfl rfl (by decide) (by decide)).2 ⟨true, []⟩ []
      [{ href := "http://a.com", title := "", body := "" }] (by decide)⟩

/-- C1 counterexample: a run with both a retrieval-store hit and scraped
content assembles a context containing BOTH the store snippet and the
scraped snippet — the tiers are not mutually exclusive, so the claimed
strict priority fallback is false on the code. -/
theorem C1_counterexample :
    (research_agent_stream okEnv).contextUsed =
      some ("Source: rag content\n\nSource (http://a.com): content") ∧
    contextRagParts okEnv.ragQuery = ["Source: rag content"] ∧
    contextScrapedParts (scrapedOf okEnv) =
      ["Source (http://a.com): content"] := by
  refine ⟨by decide, by decide, by decide⟩

/-- C1 as amended: the assembled context consists of retrieval-store hit
snippets (top 3, 500 chars each) when the store query succeeded with at
least one hit, TOGETHER WITH (not instead of) scraped page snippets
(top 3, 500 chars each) when any scraping succeeded; raw web-search
title+body snippets (top 3, 300-char bodies) appear exactly when neither
of the first two tiers produced a part. -/
theorem C1_context_assembly (env : Env) (web : List WebResult)
    (rag : RagQueryRes) (scraped : List (String × String))
    (h1 : env.sexualDetected = false) (h2 : env.webSearch = .ok web)
    (h3 : web ≠ []) (h4 : urlsOf web ≠ [])
    (h5 : ¬ (¬ (scrapedOf env ≠ [] ∨
      (env.ragQuery.success = true ∧ env.ragQuery.results ≠ [])) ∧
      ¬ env.isClear = true))
    (h6 : env.needsImages = false ∨ ∃ imgs, env.imageSearch = .ok imgs) :
    (research_agent_stream env).contextUsed =
      some (assembledContext env.ragQuery (scrapedOf env) web) ∧
    (contextRagParts rag ++ contextScrapedParts scraped ≠ [] →
      contextParts rag scraped web =
        contextRagParts rag ++ contextScrapedParts scraped) ∧
    (contextRagParts rag ++ contextScrapedParts scraped = [] → web ≠ [] →
      contextParts rag scraped web = contextWebParts web) ∧
    (∀ s ∈ contextRagParts rag, ∃ hit ∈ rag.results.take 3,
      s = "Source: " ++ strTake hit.content 500) ∧
    (∀ s ∈ contextScrapedParts scraped, ∃ p ∈ scraped.take 3,
      s = "Source (" ++ p.1 ++ "): " ++ strTake p.2 500) ∧
    (∀ s ∈ contextWebParts web, ∃ r ∈ web.take 3,
      s = "Source: " ++ r.title ++ "\n" ++ strTake r.body 300) := by
  refine ⟨?_, ?_, ?_, ?_, ?_, ?_⟩
  · rw [research_agent_stream_eq_scraping env web h1 h2 h3,
      streamFromScraping_gate_open env web h4 h5]
    exact streamFromMedia_contextUsed _ _ _ _ _ _ h6
  · intro hne
    simp only [contextParts]
    rw [if_neg (fun hc => hne hc.1), List.append_nil]
  · intro hb hw
    simp only [contextParts, hb]
    rw [if_pos ⟨trivial, hw⟩, List.nil_append]
  · intro s hs
    by_cases hc : rag.success = true ∧ rag.results ≠ []
    · rw [contextRagParts, if_pos hc] at hs
      obtain ⟨hit, hmem, heq⟩ := List.mem_filterMap.mp hs
      by_cases hcc : hit.content ≠ ""
      · rw [if_pos hcc] at heq
        exact ⟨hit, hmem, (Option.some_inj.mp heq).symm⟩
      · rw [if_neg hcc] at heq
        exact absurd heq (by simp)
    · rw [contextRagParts, if_neg hc] at hs
      exact absurd hs (by simp)
  · intro s hs
    rw [contextScrapedParts] at hs
    obtain ⟨p, hmem, heq⟩ := List.mem_filterMap.mp hs
    by_cases hcc : p.2 ≠ "" ∧ ¬ strStartsWith p.2 "Error:"
    · rw [if_pos hcc] at heq
      exact ⟨p, hmem, (Option.some_inj.mp heq).symm⟩
    · rw [if_neg hcc] at heq
      exact absurd heq (by simp)
  · intro s hs
    rw [contextWebParts] at hs
    obtain ⟨r, hmem, heq⟩ := List.mem_filterMap.mp hs
    by_cases hcc : r.title ≠ "" ∨ r.body ≠ ""
    · rw [if_pos hcc] at heq
      exact ⟨r, hmem, (Option.some_inj.mp heq).symm⟩
    · rw [if_neg hcc] at heq
      exact absurd heq (by simp)

/-- Witness for C1 (amended) at a concrete run with both tiers present. -/
theorem C1_context_assembly_witness :
    (research_agent_stream okEnv).contextUsed =
      some (assembledContext okEnv.ragQuery (scrapedOf okEnv)
        [{ href := "http://a.com", title := "t", body := "b" }]) ∧
    contextParts okEnv.ragQuery (scrapedOf okEnv)
        [{ href := "http://a.com", title := "t", body := "b" }] =
      contextRagParts okEnv.ragQuery ++
        contextScrapedParts (scrapedOf okEnv) :=
  ⟨(C1_context_assembly okEnv
      [{ href := "http://a.com", title := "t", body := "b" }]
      okEnv.ragQuery (scrapedOf okEnv) rfl rfl (by decide) (by decide)
      (by decide) (Or.inl rfl)).1,
   (C1_context_assembly okEnv
      [{ href := "http://a.com", title := "t", body := "b" }]
      okEnv.ragQuery (scrapedOf okEnv) rfl rfl (by decide) (by decide)
      (by decide) (Or.inl rfl)).2.1 (by decide)⟩

end DeepResearcher
